import Mathlib

/-!
Verification development for the deck-statistics pipeline of
`tiermonAllConditions` (`src/conditions.js`, `src/unnamed/part_000`,
`src/unnamed/part_001`).

The two source variants share identical code for the basic-metric,
share, meta-impact, ranking and percentile stages; they differ only in
the Bayesian rating engine (the `conditions.js` engine blends a Wilson
interval with a Beta posterior and scales by 175; the unnamed variant
uses a breakpoint-interpolated dynamic z-score and scales by 180).
Both engines are embedded below.

JavaScript numbers are IEEE-754 doubles.  All inputs are integers and
the stage-1/2/7 computations use only field operations, so they are
modelled exactly over `ℚ`, extended with the IEEE special values
(`NaN`, `Infinity`, `-Infinity`) so that the division-by-zero behaviour
of the source is represented faithfully.  The rating engines use
`sqrt`/`log`/`exp` and are modelled over `ℝ`.
-/

/-- Model of a JavaScript number as produced by the pipeline: an exact
rational, or one of the IEEE special values `NaN`, `Infinity`,
`-Infinity`. -/
inductive JSVal where
  | num (q : ℚ)
  | nan
  | inf
  | ninf
deriving DecidableEq, Repr

namespace JSVal

/-- JavaScript addition restricted to the modelled values. -/
def jsAdd : JSVal → JSVal → JSVal
  | .num a, .num b => .num (a + b)
  | .nan, _ => .nan
  | _, .nan => .nan
  | .inf, .ninf => .nan
  | .ninf, .inf => .nan
  | .inf, _ => .inf
  | _, .inf => .inf
  | .ninf, _ => .ninf
  | _, .ninf => .ninf

/-- JavaScript multiplication restricted to the modelled values. -/
def jsMul : JSVal → JSVal → JSVal
  | .num a, .num b => .num (a * b)
  | .nan, _ => .nan
  | _, .nan => .nan
  | .inf, .inf => .inf
  | .inf, .ninf => .ninf
  | .ninf, .inf => .ninf
  | .ninf, .ninf => .inf
  | .inf, .num b => if 0 < b then .inf else if b < 0 then .ninf else .nan
  | .num a, .inf => if 0 < a then .inf else if a < 0 then .ninf else .nan
  | .ninf, .num b => if 0 < b then .ninf else if b < 0 then .inf else .nan
  | .num a, .ninf => if 0 < a then .ninf else if a < 0 then .inf else .nan

/-- JavaScript division restricted to the modelled values.  Division of
a nonzero finite value by zero yields a signed infinity and `0/0`
yields `NaN`, exactly as in IEEE-754 (the sign of zero is not tracked;
the pipeline never divides by a negative zero). -/
def jsDiv : JSVal → JSVal → JSVal
  | .nan, _ => .nan
  | _, .nan => .nan
  | .inf, .inf => .nan
  | .inf, .ninf => .nan
  | .ninf, .inf => .nan
  | .ninf, .ninf => .nan
  | .num _, .inf => .num 0
  | .num _, .ninf => .num 0
  | .inf, .num b => if 0 ≤ b then .inf else .ninf
  | .ninf, .num b => if 0 ≤ b then .ninf else .inf
  | .num a, .num b =>
      if b ≠ 0 then .num (a / b)
      else if a = 0 then .nan
      else if 0 < a then .inf
      else .ninf

/-- JavaScript `<` comparison; any comparison with `NaN` is false. -/
def jsLt : JSVal → JSVal → Bool
  | .num a, .num b => a < b
  | .nan, _ => false
  | _, .nan => false
  | .inf, .inf => false
  | .ninf, .ninf => false
  | .ninf, _ => true
  | _, .inf => true
  | _, _ => false

/-- JavaScript `Math.max` on two values (`NaN` propagates;
`-Infinity` is the identity, matching `Math.max()` of no arguments). -/
def jsMax : JSVal → JSVal → JSVal
  | .nan, _ => .nan
  | _, .nan => .nan
  | .inf, _ => .inf
  | _, .inf => .inf
  | .ninf, b => b
  | a, .ninf => a
  | .num a, .num b => .num (max a b)

/-- JavaScript unary negation. -/
def jsNeg : JSVal → JSVal
  | .num a => .num (-a)
  | .nan => .nan
  | .inf => .ninf
  | .ninf => .inf

/-- The value is a finite number within the closed interval
`[lo, hi]` (the IEEE specials are in no interval). -/
def inRange (lo hi : ℚ) : JSVal → Prop
  | .num q => lo ≤ q ∧ q ≤ hi
  | _ => False

instance (lo hi : ℚ) (v : JSVal) : Decidable (inRange lo hi v) := by
  cases v <;> simp only [inRange] <;> infer_instance

end JSVal

open JSVal

/-- One input record of the raw dataset (`decks` array): a deck name
with its usage count and aggregate wins/losses/ties. -/
structure RawRecord where
  deck_name : String
  count : ℕ
  wins : ℕ
  losses : ℕ
  ties : ℕ
deriving DecidableEq, Repr

/-- `calculatePercentile` from the source: the fraction of entries of
`sortedArray` strictly below `value`, divided by `length - 1`, times
100.  (The counting is insensitive to the order of `sortedArray`.) -/
def calculatePercentile (value : JSVal) (sortedArray : List JSVal) : JSVal :=
  let rank := (sortedArray.filter (fun v => jsLt v value)).length
  jsMul (jsDiv (.num rank) (.num ((sortedArray.length : ℚ) - 1))) (.num 100)

/-- Sum of a list of JS values (`reduce((sum, x) => sum + x, 0)`), used
to state the Σ share invariant of the specification. -/
def jsSum (vs : List JSVal) : JSVal := vs.foldl jsAdd (.num 0)

/-- STEP 1 output: the raw fields plus total matches, win rates and
tournament depth. -/
structure Enriched1 extends RawRecord where
  total_matches : ℕ
  win_rate : JSVal
  adjusted_win_rate : JSVal
  avg_matches_per_entry : JSVal
deriving DecidableEq, Repr

/-- STEP 1 (`enrichedDecks = decks.map(...)`) for one record:
`total_matches = wins + losses + ties`,
`win_rate = wins / total_matches * 100`,
`adjusted_win_rate = (wins + 0.5*ties) / total_matches * 100`,
`avg_matches_per_entry = total_matches / count`. -/
def enrichRecord (deck : RawRecord) : Enriched1 :=
  let total_matches : ℕ := deck.wins + deck.losses + deck.ties
  { deck with
    total_matches := total_matches
    win_rate :=
      jsMul (jsDiv (.num deck.wins) (.num total_matches)) (.num 100)
    adjusted_win_rate :=
      jsMul (jsDiv (.num ((deck.wins : ℚ) + 0.5 * (deck.ties : ℚ)))
        (.num total_matches)) (.num 100)
    avg_matches_per_entry := jsDiv (.num total_matches) (.num deck.count) }

/-- STEP 1 applied to the whole dataset: a plain `map`, so no record is
excluded and no error is raised. -/
def enrichStep1 (decks : List RawRecord) : List Enriched1 :=
  decks.map enrichRecord

/-- STEP 2 output: usage share and share against the most played deck. -/
structure Enriched2 extends Enriched1 where
  share : JSVal
  share_compared_to_most_played_deck : JSVal
deriving DecidableEq, Repr

/-- `totalCount`: the summed usage count of the population. -/
def totalCountOf (l : List Enriched1) : ℕ := (l.map (·.count)).sum

/-- `mostPlayedDeckCount = Math.max(...counts)` (which is `-Infinity`
for an empty population). -/
def mostPlayedDeckCount (l : List Enriched1) : JSVal :=
  (l.map (·.count)).foldr (fun c m => jsMax (.num c) m) .ninf

/-- STEP 2: `share = count / totalCount * 100` and
`share_compared_to_most_played_deck = share / mostPlayedShare * 100`. -/
def enrichStep2 (l : List Enriched1) : List Enriched2 :=
  let totalCount := totalCountOf l
  let mostPlayedShare :=
    jsMul (jsDiv (mostPlayedDeckCount l) (.num totalCount)) (.num 100)
  l.map (fun deck =>
    let share := jsMul (jsDiv (.num deck.count) (.num totalCount)) (.num 100)
    { deck with
      share := share
      share_compared_to_most_played_deck :=
        jsMul (jsDiv share mostPlayedShare) (.num 100) })

/-- STEP 3 output: adds the meta-impact score. -/
structure Enriched3 extends Enriched2 where
  meta_impact : JSVal
deriving DecidableEq, Repr

/-- STEP 3: `meta_impact = adjusted_win_rate * share`. -/
def enrichStep3 (l : List Enriched2) : List Enriched3 :=
  l.map (fun deck =>
    { deck with meta_impact := jsMul deck.adjusted_win_rate deck.share })

/-! ### The rating engine of `src/unnamed/part_000` / `part_001`

Phase 1/2 of `hierarchicalBayesian` (the empirical-Bayes prior) uses
only field operations on the integer inputs, so it is modelled exactly
over `ℚ`.  The per-deck phase 3 takes a square root and (for small
samples) a logarithm, so it lives in `ℝ`. -/

namespace Unnamed0

/-- Linear interpolation between the breakpoints
(`lower.z + progress * zRange` in the source). -/
def lerp (n1 n2 z1 z2 q : ℚ) : ℚ :=
  z1 + (q - n1) / (n2 - n1) * (z2 - z1)

/-- The breakpoint scan of `getDynamicZScore`: the first breakpoint
segment containing `n` is used for linear interpolation; if no segment
matches, the loop's initialisation (first and last breakpoint) is
used. -/
def zInterp (n : ℚ) : ℚ :=
  if 1 ≤ n ∧ n ≤ 5 then lerp 1 5 3.536 3.463 n
  else if 5 ≤ n ∧ n ≤ 10 then lerp 5 10 3.463 3.404 n
  else if 10 ≤ n ∧ n ≤ 20 then lerp 10 20 3.404 3.350 n
  else if 20 ≤ n ∧ n ≤ 30 then lerp 20 30 3.350 3.302 n
  else if 30 ≤ n ∧ n ≤ 50 then lerp 30 50 3.302 3.256 n
  else if 50 ≤ n ∧ n ≤ 100 then lerp 50 100 3.256 3.201 n
  else if 100 ≤ n ∧ n ≤ 200 then lerp 100 200 3.201 3.151 n
  else if 200 ≤ n ∧ n ≤ 500 then lerp 200 500 3.151 3.101 n
  else if 500 ≤ n ∧ n ≤ 1000 then lerp 500 1000 3.101 3.063 n
  else if 1000 ≤ n ∧ n ≤ 2000 then lerp 1000 2000 3.063 3.035 n
  else if 2000 ≤ n ∧ n ≤ 5000 then lerp 2000 5000 3.035 3.007 n
  else if 5000 ≤ n ∧ n ≤ 10000 then lerp 5000 10000 3.007 2.987 n
  else if 10000 ≤ n ∧ n ≤ 20000 then lerp 10000 20000 2.987 2.972 n
  else if 20000 ≤ n ∧ n ≤ 50000 then lerp 20000 50000 2.972 2.955 n
  else if 50000 ≤ n ∧ n ≤ 100000 then lerp 50000 100000 2.955 2.943 n
  else if 100000 ≤ n ∧ n ≤ 500000 then lerp 100000 500000 2.943 2.931 n
  else if 500000 ≤ n ∧ n ≤ 1000000 then lerp 500000 1000000 2.931 2.931 n
  else lerp 1 1000000 3.536 2.931 n

/-- `getDynamicZScore`: clamp the sample size to `[1, 10⁶]`,
interpolate between the breakpoints, and for `n < 100` apply the
logarithmic smoothing factor `1 + 0.05*(1 - log(n+1)/log(101))`. -/
noncomputable def getDynamicZScore (n : ℕ) : ℝ :=
  let nc : ℚ := max 1 (min (n : ℚ) 1000000)
  let interpolatedZ : ℚ := zInterp nc
  if nc < 100 then
    let logSmoothing : ℝ := Real.log ((nc : ℝ) + 1) / Real.log 101
    let smoothingFactor : ℝ := 1 + 0.05 * (1 - logSmoothing)
    (interpolatedZ : ℝ) * smoothingFactor
  else (interpolatedZ : ℝ)

/-- `getMetaAdjustmentFactor`: 1 for metas of at least 100 decks,
otherwise `clamp(0.8 + 0.2*totalDecks/100, 0.8, 1.0)`. -/
def getMetaAdjustmentFactor (totalDecks : ℕ) : ℚ :=
  if 100 ≤ totalDecks then 1
  else max 0.8 (min (0.8 + 0.2 * (totalDecks : ℚ) / 100) 1)

/-- Per-deck sample size `n = wins + losses + ties`. -/
def sampleSize (d : RawRecord) : ℕ := d.wins + d.losses + d.ties

/-- Per-deck tie-adjusted win rate `(wins + 0.5*ties) / n`
(the `winRate` of the source's `deckStats`). -/
def deckWinRate (d : RawRecord) : ℚ :=
  ((d.wins : ℚ) + 0.5 * (d.ties : ℚ)) / (sampleSize d : ℚ)

/-- `totalGames`: sum of all decks' sample sizes. -/
def totalGames (allData : List RawRecord) : ℚ :=
  ((allData.map sampleSize).sum : ℕ)

/-- `weightedMean`: match-count-weighted mean of the tie-adjusted win
rates. -/
def weightedMean (allData : List RawRecord) : ℚ :=
  (allData.map (fun d => deckWinRate d * (sampleSize d : ℚ))).sum
    / totalGames allData

/-- `betweenDeckVariance`: unweighted mean squared deviation of the
per-deck win rates from the weighted mean. -/
def betweenDeckVariance (allData : List RawRecord) : ℚ :=
  (allData.map (fun d => (deckWinRate d - weightedMean allData) ^ 2)).sum
    / (allData.length : ℚ)

/-- `meanEst`: the weighted mean clamped to `[0.01, 0.99]`. -/
def meanEst (allData : List RawRecord) : ℚ :=
  max 0.01 (min 0.99 (weightedMean allData))

/-- `varEst`: the between-deck variance, capped at 85% of the maximal
Beta variance `meanEst*(1-meanEst)` and floored at `0.0001`. -/
def varEst (allData : List RawRecord) : ℚ :=
  max 0.0001
    (min (betweenDeckVariance allData)
      (meanEst allData * (1 - meanEst allData) * 0.85))

/-- `alphaBetaScale` (method of moments). -/
def alphaBetaScale (allData : List RawRecord) : ℚ :=
  meanEst allData * (1 - meanEst allData) / varEst allData - 1

/-- Prior `α₀`, floored at 0.5. -/
def priorAlpha (allData : List RawRecord) : ℚ :=
  max 0.5 (meanEst allData * alphaBetaScale allData)

/-- Prior `β₀`, floored at 0.5. -/
def priorBeta (allData : List RawRecord) : ℚ :=
  max 0.5 ((1 - meanEst allData) * alphaBetaScale allData)

/-- The per-deck posterior record returned by `hierarchicalBayesian`
(the source's `lowerBound` field holds the clamped
`adjustedLowerBound`). -/
structure BayesResult where
  wins : ℕ
  losses : ℕ
  ties : ℕ
  n : ℕ
  posteriorMean : ℚ
  posteriorVariance : ℚ
  posteriorStdDev : ℝ
  zScore : ℝ
  lowerBound : ℝ

/-- Phase 3 of `hierarchicalBayesian` for one deck, with the
population-level quantities (`priorAlpha`, `priorBeta`,
`metaAdjustment`) as parameters (they are closure variables in the
source). -/
noncomputable def deckResult (priorAlpha priorBeta metaAdjustment : ℚ)
    (wins losses ties : ℕ) : BayesResult :=
  let n : ℕ := wins + losses + ties
  let deckZScore : ℝ := getDynamicZScore n
  let adjustedZ : ℝ := deckZScore * (metaAdjustment : ℝ)
  let postAlpha : ℚ := priorAlpha + (wins : ℚ)
  let postBeta : ℚ := priorBeta + (losses : ℚ)
  let finalAlpha : ℚ := postAlpha + 0.5 * (ties : ℚ)
  let finalBeta : ℚ := postBeta + 0.5 * (ties : ℚ)
  let posteriorMean : ℚ := finalAlpha / (finalAlpha + finalBeta)
  let posteriorVariance : ℚ :=
    (finalAlpha * finalBeta) /
      ((finalAlpha + finalBeta) ^ 2 * (finalAlpha + finalBeta + 1))
  let posteriorStdDev : ℝ := Real.sqrt (posteriorVariance : ℝ)
  let lowerBound : ℝ := max 0 ((posteriorMean : ℝ) - adjustedZ * posteriorStdDev)
  let adjustedLowerBound : ℝ := min 0.99 lowerBound
  { wins := wins, losses := losses, ties := ties, n := n
    posteriorMean := posteriorMean
    posteriorVariance := posteriorVariance
    posteriorStdDev := posteriorStdDev
    zScore := adjustedZ
    lowerBound := adjustedLowerBound }

/-- `hierarchicalBayesian`: compute the empirical-Bayes prior from the
whole population, then the posterior record of every deck. -/
noncomputable def hierarchicalBayesian (allData : List RawRecord) :
    List BayesResult :=
  let metaAdjustment := getMetaAdjustmentFactor allData.length
  let pA := priorAlpha allData
  let pB := priorBeta allData
  allData.map (fun d => deckResult pA pB metaAdjustment d.wins d.losses d.ties)

/-- `calculateStrength`: scale a win probability to the 0–180 rating
scale. -/
noncomputable def calculateStrength (winPct : ℝ) : ℝ := winPct * 180

end Unnamed0

/-- STEP 4 output: adds the Bayesian rating. -/
structure Enriched4 extends Enriched3 where
  rating : ℝ

/-- STEP 4: `deck.rating = calculateStrength(bayesianResults[index].lowerBound)`,
with `bayesianResults = hierarchicalBayesian(bayesianInput)` computed
positionally over the population. -/
noncomputable def enrichStep4 (l : List Enriched3) : List Enriched4 :=
  let bayesianResults :=
    Unnamed0.hierarchicalBayesian
      (l.map (fun d => d.toEnriched2.toEnriched1.toRawRecord))
  (l.zip bayesianResults).map
    (fun p => { p.1 with rating := Unnamed0.calculateStrength p.2.lowerBound })

/-- STEP 6 output: adds the dense 1-based rank. -/
structure Enriched6 extends Enriched4 where
  rank : ℕ

/-- STEP 6 sort: `[...enrichedDecks].sort((a, b) => b.rating - a.rating)`
(rating descending). -/
noncomputable def decksByRating (l : List Enriched4) : List Enriched4 :=
  l.mergeSort (fun a b => decide (b.rating ≤ a.rating))

/-- STEP 6: assign `rank = index + 1` along the rating-sorted
population.  (The source mutates the shared deck objects; the model
returns the ranked population, which is a permutation of the input.) -/
noncomputable def enrichStep6 (l : List Enriched4) : List Enriched6 :=
  (decksByRating l).enum.map (fun p => { p.2 with rank := p.1 + 1 })

/-- STEP 7 output: adds all percentile fields. -/
structure Enriched7 extends Enriched6 where
  rating_pct : JSVal
  count_pct : JSVal
  total_matches_pct : JSVal
  win_rate_pct : JSVal
  adjusted_win_rate_pct : JSVal
  avg_matches_per_entry_pct : JSVal
  meta_impact_pct : JSVal
  rank_pct : JSVal

/-- Ascending sort comparator used for the `sorted*` metric arrays
(`.sort((a, b) => a - b)`).  Only the multiset of the sorted array
matters to `calculatePercentile`, which counts strict inequalities. -/
def jsAsc (a b : JSVal) : Bool := ! jsLt b a

/-- `calculatePercentile` applied to a real-valued metric (the rating):
the strict-lower count and the length are integers, so the resulting
percentile is still an exact `JSVal`. -/
noncomputable def calculatePercentileR (value : ℝ) (sortedArray : List ℝ) : JSVal :=
  let rank := (sortedArray.filter (fun v => decide (v < value))).length
  jsMul (jsDiv (.num rank) (.num ((sortedArray.length : ℚ) - 1))) (.num 100)

/-- STEP 7: percentile of every metric of every deck within the full
population. -/
noncomputable def enrichStep7 (l : List Enriched6) : List Enriched7 :=
  let sortedRatings := (l.map (·.rating)).mergeSort (fun a b => decide (a ≤ b))
  let sortedCounts := (l.map (fun d => JSVal.num d.count)).mergeSort jsAsc
  let sortedTotalMatches :=
    (l.map (fun d => JSVal.num d.total_matches)).mergeSort jsAsc
  let sortedWinRates := (l.map (·.win_rate)).mergeSort jsAsc
  let sortedAdjustedWinRates := (l.map (·.adjusted_win_rate)).mergeSort jsAsc
  let sortedAvgMatches := (l.map (·.avg_matches_per_entry)).mergeSort jsAsc
  let sortedMetaImpact := (l.map (·.meta_impact)).mergeSort jsAsc
  let sortedRanks := (l.map (·.rank)).mergeSort (fun a b => a ≤ b)
  l.map (fun deck =>
    { deck with
      rating_pct := calculatePercentileR deck.rating sortedRatings
      count_pct := calculatePercentile (.num deck.count) sortedCounts
      total_matches_pct :=
        calculatePercentile (.num deck.total_matches) sortedTotalMatches
      win_rate_pct := calculatePercentile deck.win_rate sortedWinRates
      adjusted_win_rate_pct :=
        calculatePercentile deck.adjusted_win_rate sortedAdjustedWinRates
      avg_matches_per_entry_pct :=
        calculatePercentile deck.avg_matches_per_entry sortedAvgMatches
      meta_impact_pct := calculatePercentile deck.meta_impact sortedMetaImpact
      rank_pct :=
        calculatePercentile (.num (-(deck.rank : ℚ)))
          (sortedRanks.map (fun r : ℕ => JSVal.num (-(r : ℚ)))) })

/-- The full statistical pipeline (tier labels, which no claim
concerns, are omitted; they add a string field and change nothing
numeric). -/
noncomputable def pipeline (decks : List RawRecord) : List Enriched7 :=
  enrichStep7 (enrichStep6 (enrichStep4 (enrichStep3 (enrichStep2 (enrichStep1 decks)))))

/-! ### The rating engine of `src/conditions.js`

Its prior estimation is likewise exact rational arithmetic; the
per-deck phase uses `sqrt`, `log10` and `exp` and lives in `ℝ`.  The
locals `metaSizeFactor` and `sampleDensity` of the source are computed
but never used, and are omitted. -/

namespace ConditionsJs

/-- `wilsonScoreLowerBound`: lower bound of the Wilson score interval,
0 for an empty sample. -/
noncomputable def wilsonScoreLowerBound (successes : ℝ) (n : ℕ) (z : ℝ) : ℝ :=
  if n = 0 then 0
  else
    let phat := successes / (n : ℝ)
    let denominator := 1 + z * z / (n : ℝ)
    let centre := (phat + z * z / (2 * (n : ℝ))) / denominator
    let margin :=
      (z * Real.sqrt ((phat * (1 - phat) + z * z / (4 * (n : ℝ))) / (n : ℝ)))
        / denominator
    max 0 (centre - margin)

/-- `effectiveSampleSize`: log-dampened sample size, capped at half of
the whole meta's games. -/
noncomputable def effectiveSampleSize (n : ℕ) (total_tournament_games : ℕ) : ℝ :=
  let scale := Real.logb 10 ((total_tournament_games : ℝ) + 1)
  let dampening := min 1 (scale / 6)
  let maxEffectiveN := (total_tournament_games : ℝ) * 0.5
  min ((n : ℝ) * (0.5 + 0.5 * dampening)) maxEffectiveN

/-- Per-deck adjusted wins `wins + 0.5*ties`. -/
def adjWins (d : RawRecord) : ℚ := (d.wins : ℚ) + 0.5 * (d.ties : ℚ)

/-- Per-deck adjusted losses `losses + 0.5*ties`. -/
def adjLosses (d : RawRecord) : ℚ := (d.losses : ℚ) + 0.5 * (d.ties : ℚ)

/-- Per-deck tie-adjusted win rate `adjWins / n`. -/
def winRate (d : RawRecord) : ℚ := adjWins d / (Unnamed0.sampleSize d : ℚ)

/-- `total_tournament_games`: summed sample sizes. -/
def totalTournamentGames (allData : List RawRecord) : ℕ :=
  (allData.map Unnamed0.sampleSize).sum

/-- `weightedMean`: match-weighted mean win rate. -/
def weightedMean (allData : List RawRecord) : ℚ :=
  (allData.map (fun d => winRate d * (Unnamed0.sampleSize d : ℚ))).sum
    / (totalTournamentGames allData : ℚ)

/-- `weightedVariance`: match-weighted variance of win rates. -/
def weightedVariance (allData : List RawRecord) : ℚ :=
  (allData.map (fun d =>
    (Unnamed0.sampleSize d : ℚ) * (winRate d - weightedMean allData) ^ 2)).sum
    / (totalTournamentGames allData : ℚ)

/-- `median`: middle entry of the ascending win rates
(`sortedWinRates[Math.floor(length/2)]`; 0 as the out-of-range default,
which a nonempty population never hits). -/
def median (allData : List RawRecord) : ℚ :=
  let sortedWinRates := (allData.map winRate).mergeSort (fun a b => a ≤ b)
  sortedWinRates.getD (sortedWinRates.length / 2) 0

/-- `priorCenter`: clamped mean of weighted mean and median. -/
def priorCenter (allData : List RawRecord) : ℚ :=
  max 0.01 (min 0.99 ((weightedMean allData + median allData) / 2))

/-- `metaDiversity`: weighted variance relative to the Bernoulli
maximum. -/
def metaDiversity (allData : List RawRecord) : ℚ :=
  weightedVariance allData / (priorCenter allData * (1 - priorCenter allData))

/-- `diversityFactor`. -/
def diversityFactor (allData : List RawRecord) : ℚ :=
  min 1.5 (0.5 + metaDiversity allData)

/-- `adjustedVariance`: diversity-scaled weighted variance, capped at
90% of the Bernoulli maximum and floored at `0.0001`. -/
def adjustedVariance (allData : List RawRecord) : ℚ :=
  max 0.0001
    (min (priorCenter allData * (1 - priorCenter allData) * 0.9)
      (weightedVariance allData * diversityFactor allData))

/-- `priorStrength`, floored at 2. -/
def priorStrength (allData : List RawRecord) : ℚ :=
  max 2 (priorCenter allData * (1 - priorCenter allData)
    / adjustedVariance allData - 1)

/-- Prior `α₀ = priorCenter * priorStrength`. -/
def priorAlpha (allData : List RawRecord) : ℚ :=
  priorCenter allData * priorStrength allData

/-- Prior `β₀ = (1 - priorCenter) * priorStrength`. -/
def priorBeta (allData : List RawRecord) : ℚ :=
  (1 - priorCenter allData) * priorStrength allData

/-- `baseConfidence`: ladder over the meta's total games. -/
def baseConfidence (total_tournament_games : ℕ) : ℚ :=
  if total_tournament_games < 1000 then 0.75
  else if total_tournament_games < 10000 then 0.80
  else if total_tournament_games < 50000 then 0.85
  else if total_tournament_games < 200000 then 0.90
  else 0.95

/-- `adjustedConfidence`: base confidence shrunk by meta diversity. -/
def adjustedConfidence (allData : List RawRecord) : ℚ :=
  baseConfidence (totalTournamentGames allData)
    * (0.85 + 0.15 * (1 - min 1 (metaDiversity allData)))

/-- `confidenceToZ`: approximate inverse normal CDF ladder. -/
def confidenceToZ (conf : ℚ) : ℚ :=
  if 0.95 ≤ conf then 1.96
  else if 0.90 ≤ conf then 1.645
  else if 0.85 ≤ conf then 1.44
  else if 0.80 ≤ conf then 1.28
  else if 0.75 ≤ conf then 1.15
  else 1

/-- `baseZ` of the population. -/
def baseZ (allData : List RawRecord) : ℚ :=
  confidenceToZ (adjustedConfidence allData)

/-- `sampleSizeFactor`: log-scaled weight of a deck's own sample,
reaching 1 at `n = 5000`. -/
noncomputable def sampleSizeFactor (n : ℕ) : ℝ :=
  min 1 (Real.logb 10 ((n : ℝ) + 1) / Real.logb 10 5000)

/-- `deckZ = baseZ * (2.0 - sampleSizeFactor)`: the per-deck z-score,
more conservative for small samples. -/
noncomputable def deckZ (baseZ : ℝ) (n : ℕ) : ℝ :=
  baseZ * (2 - sampleSizeFactor n)

/-- The per-deck result of the `conditions.js` engine. -/
structure CBayesResult where
  wins : ℕ
  losses : ℕ
  ties : ℕ
  n : ℕ
  posteriorMean : ℚ
  adjustedLowerBound : ℝ

/-- Phase 3 of the `conditions.js` `hierarchicalBayesian` for one deck,
with the population-level quantities as parameters. -/
noncomputable def deckResult (priorCtr pA pB bZ avgGamesPerDeck : ℚ)
    (total_tournament_games : ℕ) (wins losses ties : ℕ) : CBayesResult :=
  let n : ℕ := wins + losses + ties
  let aw : ℚ := (wins : ℚ) + 0.5 * (ties : ℚ)
  let al : ℚ := (losses : ℚ) + 0.5 * (ties : ℚ)
  let effectiveN : ℝ := effectiveSampleSize n total_tournament_games
  let postAlpha : ℚ := pA + aw
  let postBeta : ℚ := pB + al
  let posteriorMean : ℚ := postAlpha / (postAlpha + postBeta)
  let dZ : ℝ := deckZ (bZ : ℝ) n
  let wilsonLowerBound : ℝ := wilsonScoreLowerBound (aw : ℝ) n dZ
  let postVariance : ℚ :=
    (postAlpha * postBeta) / ((postAlpha + postBeta) ^ 2 * (postAlpha + postBeta + 1))
  let betaLowerBound : ℝ :=
    max 0 ((posteriorMean : ℝ) - dZ * Real.sqrt (postVariance : ℝ))
  let wilsonWeight : ℝ := sampleSizeFactor n
  let combinedLowerBound : ℝ :=
    wilsonWeight * wilsonLowerBound + (1 - wilsonWeight) * betaLowerBound
  let regularizationStrength : ℝ :=
    Real.exp (-(effectiveN / ((avgGamesPerDeck : ℝ) * 2)))
  let regularizedBound : ℝ :=
    combinedLowerBound * (1 - regularizationStrength)
      + (priorCtr : ℝ) * regularizationStrength
  let qualityBonus : ℝ :=
    min 0.02 ((effectiveN / (total_tournament_games : ℝ)) * 0.5)
  let finalBound : ℝ := min 0.99 (regularizedBound + qualityBonus)
  { wins := wins, losses := losses, ties := ties, n := n
    posteriorMean := posteriorMean
    adjustedLowerBound := finalBound }

/-- The `conditions.js` `hierarchicalBayesian`: population prior, then
the posterior record of every deck. -/
noncomputable def hierarchicalBayesian (allData : List RawRecord) :
    List CBayesResult :=
  let tg := totalTournamentGames allData
  let avgGamesPerDeck : ℚ := (tg : ℚ) / (allData.length : ℚ)
  allData.map (fun d =>
    deckResult (priorCenter allData) (priorAlpha allData) (priorBeta allData)
      (baseZ allData) avgGamesPerDeck tg d.wins d.losses d.ties)

/-- `calculateRating`: scale the confidence bound by 175. -/
noncomputable def calculateRating (bound : ℝ) : ℝ := bound * 175

end ConditionsJs

/-! ### Concrete populations used to settle the relational claims -/

/-- A large deck with an exactly even record (1000-1000-0). -/
def bigDeck : RawRecord := ⟨"Big", 1000, 1000, 1000, 0⟩

/-- Deck with 2000 matches at a 45% win rate. -/
def deckA : RawRecord := ⟨"A", 100, 900, 1100, 0⟩

/-- Deck with 100 matches at the same 45% win rate. -/
def deckB : RawRecord := ⟨"B", 10, 45, 55, 0⟩

/-- A 60-deck population: 58 even large decks plus `deckA` and
`deckB`. -/
def pop60 : List RawRecord := List.replicate 58 bigDeck ++ [deckA, deckB]

/-- A 5-deck population whose last deck is 50-50-0. -/
def pop5A : List RawRecord := List.replicate 4 bigDeck ++ [⟨"I", 10, 50, 50, 0⟩]

/-- The same population after the last deck trades 5 losses for 5 wins
(55-45-0). -/
def pop5B : List RawRecord := List.replicate 4 bigDeck ++ [⟨"I", 10, 55, 45, 0⟩]

/-! ## Theorems -/

/-! ### Helper lemmas -/

/-- Folding `jsAdd` over finite numbers is exact rational summation. -/
theorem foldl_jsAdd_num (l : List ℚ) (q : ℚ) :
    (l.map JSVal.num).foldl jsAdd (.num q) = .num (q + l.sum) := by
  induction l generalizing q with
  | nil => simp
  | cons a t ih => simp [jsAdd, ih, add_assoc]

/-- Summing counts after casting to `ℚ` equals casting the summed
counts. -/
theorem cast_totalCount (l : List Enriched1) :
    ((totalCountOf l : ℕ) : ℚ) = (l.map (fun d => (d.count : ℚ))).sum := by
  simp [totalCountOf, Nat.cast_list_sum, List.map_map]
  rfl

/-- Rational helper: the share terms sum to `100 * (Σ count) / T`. -/
theorem sum_share_terms (l : List Enriched1) (T : ℚ) :
    (l.map (fun d => (d.count : ℚ) / T * 100)).sum
      = (l.map (fun d => (d.count : ℚ))).sum / T * 100 := by
  induction l with
  | nil => simp
  | cons a t ih => simp [ih]; ring

/-! ### C7: Σ share over the population -/

/-- C7 (amended): for every population whose total usage count is
positive, the `share` fields are finite numbers summing to exactly 100
(hence certainly within the 1e-6 tolerance the specification grants
for floating-point rounding). -/
theorem sum_of_shares_eq_100 (l : List Enriched1) (h : 0 < totalCountOf l) :
    jsSum ((enrichStep2 l).map (fun d => d.share)) = .num 100 := by
  have hT : ((totalCountOf l : ℕ) : ℚ) ≠ 0 := by
    exact_mod_cast Nat.pos_iff_ne_zero.mp h
  have hshares : (enrichStep2 l).map (fun d => d.share)
      = l.map (fun d => JSVal.num ((d.count : ℚ) / (totalCountOf l : ℚ) * 100)) := by
    simp [enrichStep2, List.map_map]
    intro d _
    simp [jsDiv, jsMul, hT]
  rw [hshares]
  have : l.map (fun d => JSVal.num ((d.count : ℚ) / (totalCountOf l : ℚ) * 100))
      = (l.map (fun d => (d.count : ℚ) / (totalCountOf l : ℚ) * 100)).map JSVal.num := by
    rw [List.map_map]; rfl
  rw [this, jsSum, foldl_jsAdd_num, sum_share_terms, ← cast_totalCount,
    zero_add, div_self hT, one_mul]

/-- C7 witness: a concrete three-record population with total count 3. -/
theorem sum_of_shares_eq_100_witness :
    jsSum ((enrichStep2 (enrichStep1
      [⟨"X", 1, 1, 1, 0⟩, ⟨"Y", 2, 3, 1, 0⟩])).map (fun d => d.share)) = .num 100 :=
  sum_of_shares_eq_100 _ (by norm_num [enrichStep1, enrichRecord, totalCountOf])

/-- C7 counterexample: a non-empty population in which every usage
count is zero has `share = 0/0 * 100 = NaN`, so the shares do not sum
to 100 (nor to within any tolerance of it). -/
theorem sum_of_shares_nan_on_zero_count_population :
    jsSum ((enrichStep2 (enrichStep1 [⟨"X", 0, 1, 1, 0⟩])).map (fun d => d.share))
      = .nan ∧ JSVal.nan ≠ .num 100 := by
  constructor
  · norm_num [enrichStep1, enrichRecord, enrichStep2, totalCountOf, jsSum,
      jsAdd, jsDiv, jsMul]
  · simp

/-! ### C6: the multiset of ranks is exactly {1, …, N} -/

/-- The ranks assigned by STEP 6, read along the ranked population, are
literally the list `[1, …, N]`. -/
theorem map_rank_enrichStep6 (l : List Enriched4) :
    (enrichStep6 l).map (fun d => d.rank) = List.range' 1 l.length := by
  have hlen : (decksByRating l).length = l.length := List.length_mergeSort l
  have h1 : (enrichStep6 l).map (fun d => d.rank)
      = (decksByRating l).enum.map ((fun i : ℕ => i + 1) ∘ Prod.fst) := by
    simp only [enrichStep6, List.map_map]
    rfl
  have h2 := congrArg (List.map (fun i : ℕ => i + 1))
    (List.enum_map_fst (decksByRating l))
  rw [List.map_map] at h2
  rw [h1, h2, hlen, List.range'_eq_map_range]
  exact List.map_congr_left (fun i _ => Nat.add_comm i 1)

/-- STEP 6 returns a permutation of its input population (forgetting
the added rank field). -/
theorem enrichStep6_perm (l : List Enriched4) :
    ((enrichStep6 l).map (fun d => d.toEnriched4)).Perm l := by
  have h3 : (enrichStep6 l).map (fun d => d.toEnriched4)
      = (decksByRating l).enum.map Prod.snd := by
    simp only [enrichStep6, List.map_map]
    rfl
  rw [h3, List.enum_map_snd]
  exact List.mergeSort_perm l _

/-- C6: ranking assigns the rank values `1, …, N` across the
population, each exactly once (the ranked population is a permutation
of the input carrying exactly the rank list `[1, …, N]`). -/
theorem rank_multiset_eq_range (l : List Enriched4) :
    (((enrichStep6 l).map (fun d => d.rank) : List ℕ) : Multiset ℕ)
        = ((List.range' 1 l.length : List ℕ) : Multiset ℕ) ∧
      ((enrichStep6 l).map (fun d => d.toEnriched4)).Perm l :=
  ⟨by rw [map_rank_enrichStep6], enrichStep6_perm l⟩

/-! ### C3: degenerate records are not guarded -/

/-- C3: the pipeline does not guard degenerate records.  A record with
`total_matches = 0` receives `win_rate = NaN`, `adjusted_win_rate =
NaN` and `avg_matches_per_entry = NaN`; a record with `count = 0` and
matches receives `avg_matches_per_entry = Infinity`; and STEP 1 is a
plain `map`, so no record is excluded and no error is raised. -/
theorem degenerate_records_propagate_nan :
    (enrichRecord ⟨"E", 1, 0, 0, 0⟩).win_rate = .nan ∧
    (enrichRecord ⟨"E", 1, 0, 0, 0⟩).adjusted_win_rate = .nan ∧
    (enrichRecord ⟨"E", 0, 0, 0, 0⟩).avg_matches_per_entry = .nan ∧
    (enrichRecord ⟨"Z", 0, 2, 1, 0⟩).avg_matches_per_entry = .inf ∧
    ∀ decks : List RawRecord, (enrichStep1 decks).length = decks.length := by
  refine ⟨?_, ?_, ?_, ?_, fun decks => by simp [enrichStep1]⟩ <;>
    norm_num [enrichRecord, jsDiv, jsMul]

/-! ### C5: the single-entity population -/

/-- No JS value is strictly below itself. -/
theorem jsLt_self (v : JSVal) : jsLt v v = false := by
  cases v <;> simp [jsLt]

/-- `calculatePercentile` of a value within the one-element array of
itself is `0 / 0 * 100 = NaN`. -/
theorem calculatePercentile_self_singleton (v : JSVal) :
    calculatePercentile v [v] = .nan := by
  simp [calculatePercentile, jsLt_self, jsDiv, jsMul]

/-- The real-metric percentile of a value within the one-element array
of itself is likewise `NaN`. -/
theorem calculatePercentileR_self_singleton (x : ℝ) :
    calculatePercentileR x [x] = .nan := by
  simp [calculatePercentileR, jsDiv, jsMul]

/-- STEP 2 on a one-record population with nonzero count: share 100,
share against the most played deck 100. -/
theorem enrichStep2_singleton (d : Enriched1) (hc : ((d.count : ℚ)) ≠ 0) :
    enrichStep2 [d] = [{ toEnriched1 := d
                         share := .num 100
                         share_compared_to_most_played_deck := .num 100 }] := by
  simp [enrichStep2, totalCountOf, mostPlayedDeckCount, jsMax, jsDiv, jsMul,
    hc, div_self hc]

/-- STEP 6 on a one-record population: rank 1. -/
theorem enrichStep6_singleton (y : Enriched4) :
    enrichStep6 [y] = [{ toEnriched4 := y, rank := 1 }] := by
  simp [enrichStep6, decksByRating, List.mergeSort_singleton]

/-- STEP 7 on a one-record population: every percentile is
`0 / 0 * 100 = NaN` since the denominator is `N - 1 = 0`. -/
theorem enrichStep7_singleton (e : Enriched6) :
    enrichStep7 [e] = [{ toEnriched6 := e
                         rating_pct := .nan
                         count_pct := .nan
                         total_matches_pct := .nan
                         win_rate_pct := .nan
                         adjusted_win_rate_pct := .nan
                         avg_matches_per_entry_pct := .nan
                         meta_impact_pct := .nan
                         rank_pct := .nan }] := by
  simp [enrichStep7, List.mergeSort_singleton,
    calculatePercentile_self_singleton, calculatePercentileR_self_singleton]

/-- Evaluation of the whole pipeline on a one-record population with a
positive usage count: full share, rank 1, and every percentile is
`NaN` because the percentile denominator is `N - 1 = 0`. -/
theorem pipeline_singleton_fields (r : RawRecord) (hc : 0 < r.count) :
    (pipeline [r]).Forall (fun e =>
      e.share = .num 100 ∧
      e.share_compared_to_most_played_deck = .num 100 ∧
      e.rank = 1 ∧
      e.rating_pct = .nan ∧ e.count_pct = .nan ∧
      e.total_matches_pct = .nan ∧ e.win_rate_pct = .nan ∧
      e.adjusted_win_rate_pct = .nan ∧ e.avg_matches_per_entry_pct = .nan ∧
      e.meta_impact_pct = .nan ∧ e.rank_pct = .nan) ∧
    (pipeline [r]).length = 1 := by
  have hc' : ((r.count : ℚ)) ≠ 0 := by
    exact_mod_cast Nat.pos_iff_ne_zero.mp hc
  have hc1 : (((enrichRecord r).count : ℚ)) ≠ 0 := hc'
  rw [pipeline, enrichStep1, List.map_cons, List.map_nil,
    enrichStep2_singleton _ hc1]
  have e3 : ∀ x : Enriched2, enrichStep3 [x]
      = [{ toEnriched2 := x, meta_impact := jsMul x.adjusted_win_rate x.share }] := by
    intro x; simp [enrichStep3]
  rw [e3]
  have e4 : ∀ x : Enriched3, enrichStep4 [x]
      = [{ toEnriched3 := x
           rating := Unnamed0.calculateStrength
             (Unnamed0.deckResult (Unnamed0.priorAlpha [x.toRawRecord])
               (Unnamed0.priorBeta [x.toRawRecord])
               (Unnamed0.getMetaAdjustmentFactor 1)
               x.wins x.losses x.ties).lowerBound }] := by
    intro x
    simp [enrichStep4, Unnamed0.hierarchicalBayesian]
  rw [e4, enrichStep6_singleton, enrichStep7_singleton]
  simp [List.Forall]

/-- C5 (amended): for a population of exactly one entity with positive
count and positive total matches, the pipeline produces `share = 100`,
`share_vs_top = 100` and `rank = 1` as claimed, but every percentile
field is `NaN` (the percentile denominator is `N - 1 = 0`), not a
boundary value. -/
theorem single_entity_population_fields (r : RawRecord) (hc : 0 < r.count)
    (_hm : 0 < r.wins + r.losses + r.ties) :
    (pipeline [r]).Forall (fun e =>
      e.share = .num 100 ∧
      e.share_compared_to_most_played_deck = .num 100 ∧
      e.rank = 1 ∧
      e.rating_pct = .nan ∧ e.count_pct = .nan ∧
      e.total_matches_pct = .nan ∧ e.win_rate_pct = .nan ∧
      e.adjusted_win_rate_pct = .nan ∧ e.avg_matches_per_entry_pct = .nan ∧
      e.meta_impact_pct = .nan ∧ e.rank_pct = .nan) ∧
    (pipeline [r]).length = 1 :=
  pipeline_singleton_fields r hc

/-- C5 witness: the single record 1-1-0-0. -/
theorem single_entity_population_fields_witness :
    (pipeline [(⟨"S", 1, 1, 0, 0⟩ : RawRecord)]).Forall (fun e =>
      e.share = .num 100 ∧
      e.share_compared_to_most_played_deck = .num 100 ∧
      e.rank = 1 ∧
      e.rating_pct = .nan ∧ e.count_pct = .nan ∧
      e.total_matches_pct = .nan ∧ e.win_rate_pct = .nan ∧
      e.adjusted_win_rate_pct = .nan ∧ e.avg_matches_per_entry_pct = .nan ∧
      e.meta_impact_pct = .nan ∧ e.rank_pct = .nan) ∧
    (pipeline [(⟨"S", 1, 1, 0, 0⟩ : RawRecord)]).length = 1 :=
  single_entity_population_fields ⟨"S", 1, 1, 0, 0⟩ (by norm_num) (by norm_num)

/-- C5 counterexample: on a single-entity population (count 1, one
win), the percentile fields are not boundary values — already the
count percentile is `NaN`, neither 0 nor 100. -/
theorem single_entity_percentile_not_boundary :
    ¬ (pipeline [(⟨"S", 1, 1, 0, 0⟩ : RawRecord)]).Forall
      (fun e => e.count_pct = .num 0 ∨ e.count_pct = .num 100) := by
  intro hF
  obtain ⟨hfa, hlen⟩ := pipeline_singleton_fields ⟨"S", 1, 1, 0, 0⟩ (by norm_num)
  obtain ⟨e, he⟩ := List.length_eq_one.mp hlen
  rw [he] at hF hfa
  simp only [List.Forall] at hF hfa
  rcases hF with h | h <;> rw [hfa.2.2.2.2.1] at h <;> exact absurd h (by simp)

/-! ### C4: percentile ranges and the rank-percentile boundary values -/

/-- The strict-lower count of a member of the array is at most
`length - 1` (the member itself is not below itself). -/
theorem filter_jsLt_length_lt (v : JSVal) (ls : List JSVal) (hv : v ∈ ls) :
    ((ls.filter (fun x => jsLt x v)).length) < ls.length :=
  List.length_filter_lt_length_iff_exists.mpr ⟨v, hv, by simp [jsLt_self]⟩

/-- For a member value of an array of at least two entries, the
percentile is a finite number in `[0, 100]`. -/
theorem calculatePercentile_mem_inRange (v : JSVal) (ls : List JSVal)
    (hv : v ∈ ls) (h2 : 2 ≤ ls.length) :
    inRange 0 100 (calculatePercentile v ls) := by
  have hlt := filter_jsLt_length_lt v ls hv
  set k := (ls.filter (fun x => jsLt x v)).length with hk
  set L := ls.length with hL
  have hL2 : (2 : ℚ) ≤ (L : ℚ) := by exact_mod_cast h2
  have hden : ((L : ℚ) - 1) ≠ 0 := by linarith
  have hkq : (k : ℚ) ≤ (L : ℚ) - 1 := by
    have : (k : ℚ) + 1 ≤ (L : ℚ) := by exact_mod_cast Nat.succ_le_of_lt hlt
    linarith
  simp only [calculatePercentile, ← hk, ← hL, jsDiv, jsMul, hden,
    if_true, ne_eq, not_false_eq_true, ite_true]
  have hpos : (0 : ℚ) < (L : ℚ) - 1 := by linarith
  simp only [inRange]
  constructor
  · exact mul_nonneg (div_nonneg (by positivity) (le_of_lt hpos)) (by norm_num)
  · rw [div_mul_eq_mul_div, div_le_iff₀ hpos]
    nlinarith [hkq]

/-- Real-metric analogue: the percentile of a member rating of an
array of at least two ratings is a finite number in `[0, 100]`. -/
theorem calculatePercentileR_mem_inRange (x : ℝ) (ls : List ℝ)
    (hv : x ∈ ls) (h2 : 2 ≤ ls.length) :
    inRange 0 100 (calculatePercentileR x ls) := by
  have hlt : ((ls.filter (fun v => decide (v < x))).length) < ls.length :=
    List.length_filter_lt_length_iff_exists.mpr ⟨x, hv, by simp⟩
  set k := (ls.filter (fun v => decide (v < x))).length with hk
  set L := ls.length with hL
  have hL2 : (2 : ℚ) ≤ (L : ℚ) := by exact_mod_cast h2
  have hden : ((L : ℚ) - 1) ≠ 0 := by linarith
  have hkq : (k : ℚ) ≤ (L : ℚ) - 1 := by
    have : (k : ℚ) + 1 ≤ (L : ℚ) := by exact_mod_cast Nat.succ_le_of_lt hlt
    linarith
  have hpos : (0 : ℚ) < (L : ℚ) - 1 := by linarith
  simp only [calculatePercentileR, ← hk, ← hL, jsDiv, jsMul, hden,
    if_true, ne_eq, not_false_eq_true, ite_true]
  simp only [inRange]
  constructor
  · exact mul_nonneg (div_nonneg (by positivity) (le_of_lt hpos)) (by norm_num)
  · rw [div_mul_eq_mul_div, div_le_iff₀ hpos]
    nlinarith [hkq]

/-- Count of the entries of `[1, …, N]` strictly above a rank
`r ∈ [1, N]`: exactly `N - r`. -/
theorem countP_gt_range' (N r : ℕ) (h1 : 1 ≤ r) (hr : r ≤ N) :
    (List.range' 1 N).countP (fun k => decide (r < k)) = N - r := by
  induction N with
  | zero => exact absurd hr (by omega)
  | succ n ih =>
    rw [List.range'_concat, List.countP_append]
    rcases Nat.lt_or_ge n r with hnr | hnr
    · have hr' : r = n + 1 := by omega
      have hz : (List.range' 1 n).countP (fun k => decide (r < k)) = 0 := by
        apply List.countP_eq_zero.mpr
        intro a ha
        have hmem := List.mem_range'_1.mp ha
        simp only [decide_eq_true_eq]
        omega
      rw [hz]
      simp [List.countP_cons, hr']
      omega
    · rw [ih (by omega)]
      have hone : List.countP (fun k => decide (r < k)) [1 + 1 * n] = 1 := by
        simp [List.countP_cons]
        omega
      rw [hone]
      omega

/-- Value of the rank percentile: for a rank `r` within a population
whose ranks are a permutation of `[1, …, N]`, the strict-lower count on
the negated ranks is `N - r`. -/
theorem rank_pct_value (ranks : List ℕ) (N r : ℕ)
    (hperm : ranks.Perm (List.range' 1 N)) (h1r : 1 ≤ r) (hrN : r ≤ N) :
    calculatePercentile (.num (-(r : ℚ)))
        (ranks.map (fun k : ℕ => JSVal.num (-(k : ℚ))))
      = jsMul (jsDiv (.num ((N - r : ℕ) : ℚ)) (.num ((N : ℚ) - 1))) (.num 100) := by
  have hlen : ranks.length = N := by simpa using hperm.length_eq
  have hfun : ((fun x => jsLt x (.num (-(r : ℚ)))) ∘ (fun k : ℕ => JSVal.num (-(k : ℚ))))
      = fun k : ℕ => decide (r < k) := by
    funext k
    simp only [Function.comp, jsLt]
    exact decide_eq_decide.mpr (by rw [neg_lt_neg_iff]; exact_mod_cast Iff.rfl)
  have hfilter : ((ranks.map (fun k : ℕ => JSVal.num (-(k : ℚ)))).filter
      (fun x => jsLt x (.num (-(r : ℚ))))).length = N - r := by
    rw [← List.countP_eq_length_filter, List.countP_map, hfun,
      List.Perm.countP_eq _ hperm]
    exact countP_gt_range' N r h1r hrN
  simp only [calculatePercentile, hfilter, List.length_map, hlen]

/-- STEP 2 preserves the population size. -/
theorem length_enrichStep2 (l : List Enriched1) :
    (enrichStep2 l).length = l.length := by simp [enrichStep2]

/-- STEP 3 preserves the population size. -/
theorem length_enrichStep3 (l : List Enriched2) :
    (enrichStep3 l).length = l.length := by simp [enrichStep3]

/-- STEP 4 preserves the population size. -/
theorem length_enrichStep4 (l : List Enriched3) :
    (enrichStep4 l).length = l.length := by
  simp [enrichStep4, Unnamed0.hierarchicalBayesian]

/-- STEP 6 preserves the population size. -/
theorem length_enrichStep6 (l : List Enriched4) :
    (enrichStep6 l).length = l.length := by
  simp [enrichStep6, decksByRating, List.enum_length, List.length_mergeSort]

/-- STEP 7 preserves the population size. -/
theorem length_enrichStep7 (l : List Enriched6) :
    (enrichStep7 l).length = l.length := by simp [enrichStep7]

/-- C4 (amended): for every population of at least two entities, every
percentile field of every entity is a finite number in `[0, 100]`; the
entity ranked 1 (the best-rated, by STEP 6) has rank percentile exactly
100, and the entity ranked `N` (the worst-rated) has rank percentile
exactly 0. -/
theorem percentile_fields_in_range (decks : List RawRecord)
    (h2 : 2 ≤ decks.length) :
    (pipeline decks).Forall (fun e =>
      inRange 0 100 e.rating_pct ∧ inRange 0 100 e.count_pct ∧
      inRange 0 100 e.total_matches_pct ∧ inRange 0 100 e.win_rate_pct ∧
      inRange 0 100 e.adjusted_win_rate_pct ∧
      inRange 0 100 e.avg_matches_per_entry_pct ∧
      inRange 0 100 e.meta_impact_pct ∧ inRange 0 100 e.rank_pct ∧
      (e.rank = 1 → e.rank_pct = .num 100) ∧
      (e.rank = decks.length → e.rank_pct = .num 0)) := by
  set l6 : List Enriched6 :=
    enrichStep6 (enrichStep4 (enrichStep3 (enrichStep2 (enrichStep1 decks))))
    with hl6def
  have hN : l6.length = decks.length := by
    rw [hl6def, length_enrichStep6, length_enrichStep4, length_enrichStep3,
      length_enrichStep2]
    simp [enrichStep1]
  have hN2 : 2 ≤ l6.length := by omega
  have hranks : l6.map (fun d => d.rank) = List.range' 1 l6.length := by
    rw [hl6def, map_rank_enrichStep6, ← hl6def]
    rw [hl6def, length_enrichStep6]
  have hpipe : pipeline decks = enrichStep7 l6 := by rw [pipeline, hl6def]
  rw [hpipe, List.forall_iff_forall_mem]
  intro e he
  simp only [enrichStep7] at he
  obtain ⟨d, hd, rfl⟩ := List.mem_map.mp he
  have hperm : ((l6.map (fun d => d.rank)).mergeSort (fun a b => a ≤ b)).Perm
      (List.range' 1 l6.length) :=
    (List.mergeSort_perm _ _).trans (by rw [hranks])
  have hrr : d.rank ∈ List.range' 1 l6.length := by
    rw [← hranks]
    exact List.mem_map_of_mem _ hd
  obtain ⟨h1r, hrN⟩ := List.mem_range'_1.mp hrr
  have hNq : (2 : ℚ) ≤ (l6.length : ℚ) := by exact_mod_cast hN2
  have hden : ((l6.length : ℚ) - 1) ≠ 0 := by linarith
  refine ⟨?_, ?_, ?_, ?_, ?_, ?_, ?_, ?_, ?_, ?_⟩
  · refine calculatePercentileR_mem_inRange _ _ ?_ ?_
    · exact List.mem_mergeSort.mpr (List.mem_map_of_mem _ hd)
    · rw [List.length_mergeSort, List.length_map]; exact hN2
  · refine calculatePercentile_mem_inRange _ _ ?_ ?_
    · exact List.mem_mergeSort.mpr (List.mem_map_of_mem _ hd)
    · rw [List.length_mergeSort, List.length_map]; exact hN2
  · refine calculatePercentile_mem_inRange _ _ ?_ ?_
    · exact List.mem_mergeSort.mpr (List.mem_map_of_mem _ hd)
    · rw [List.length_mergeSort, List.length_map]; exact hN2
  · refine calculatePercentile_mem_inRange _ _ ?_ ?_
    · exact List.mem_mergeSort.mpr (List.mem_map_of_mem _ hd)
    · rw [List.length_mergeSort, List.length_map]; exact hN2
  · refine calculatePercentile_mem_inRange _ _ ?_ ?_
    · exact List.mem_mergeSort.mpr (List.mem_map_of_mem _ hd)
    · rw [List.length_mergeSort, List.length_map]; exact hN2
  · refine calculatePercentile_mem_inRange _ _ ?_ ?_
    · exact List.mem_mergeSort.mpr (List.mem_map_of_mem _ hd)
    · rw [List.length_mergeSort, List.length_map]; exact hN2
  · refine calculatePercentile_mem_inRange _ _ ?_ ?_
    · exact List.mem_mergeSort.mpr (List.mem_map_of_mem _ hd)
    · rw [List.length_mergeSort, List.length_map]; exact hN2
  · refine calculatePercentile_mem_inRange _ _ ?_ ?_
    · exact List.mem_map_of_mem _
        (List.mem_mergeSort.mpr (List.mem_map_of_mem _ hd))
    · rw [List.length_map, List.length_mergeSort, List.length_map]
      exact hN2
  · intro h1
    show calculatePercentile _ _ = _
    rw [rank_pct_value _ l6.length d.rank hperm h1r (by omega), h1]
    have hcast : (((l6.length - 1 : ℕ)) : ℚ) = (l6.length : ℚ) - 1 := by
      have : 1 ≤ l6.length := by omega
      push_cast [this]
      ring
    simp [jsDiv, jsMul, hden, hcast, div_self hden]
  · intro hNr
    show calculatePercentile _ _ = _
    rw [rank_pct_value _ l6.length d.rank hperm h1r (by omega)]
    rw [hNr, ← hN]
    simp [jsDiv, jsMul, hden]

/-- C4 witness: a concrete two-record population. -/
theorem percentile_fields_in_range_witness :
    (pipeline [⟨"X", 1, 1, 1, 0⟩, ⟨"Y", 2, 3, 1, 0⟩]).Forall (fun e =>
      inRange 0 100 e.rating_pct ∧ inRange 0 100 e.count_pct ∧
      inRange 0 100 e.total_matches_pct ∧ inRange 0 100 e.win_rate_pct ∧
      inRange 0 100 e.adjusted_win_rate_pct ∧
      inRange 0 100 e.avg_matches_per_entry_pct ∧
      inRange 0 100 e.meta_impact_pct ∧ inRange 0 100 e.rank_pct ∧
      (e.rank = 1 → e.rank_pct = .num 100) ∧
      (e.rank = 2 → e.rank_pct = .num 0)) :=
  percentile_fields_in_range [⟨"X", 1, 1, 1, 0⟩, ⟨"Y", 2, 3, 1, 0⟩] (by norm_num)

/-- C4 counterexample: on a non-empty population of one entity the
percentile fields are `NaN` and so lie in no interval — the count
percentile is not in `[0, 100]`. -/
theorem single_entity_percentile_not_in_range :
    ¬ (pipeline [(⟨"R", 2, 1, 1, 0⟩ : RawRecord)]).Forall
      (fun e => inRange 0 100 e.count_pct) := by
  intro hF
  obtain ⟨hfa, hlen⟩ := pipeline_singleton_fields ⟨"R", 2, 1, 1, 0⟩ (by norm_num)
  obtain ⟨e, he⟩ := List.length_eq_one.mp hlen
  rw [he] at hF hfa
  simp only [List.Forall] at hF hfa
  rw [hfa.2.2.2.2.1] at hF
  exact absurd hF (by simp [inRange])

/-! ### C8: the Beta-Binomial posterior update formulas -/

/-- C8: `hierarchicalBayesian` computes each entity's posterior from
the population prior `(α₀, β₀)` as `α = α₀ + wins + 0.5*ties`,
`β = β₀ + losses + 0.5*ties`, with posterior mean `α/(α+β)` and
posterior variance `αβ/((α+β)²(α+β+1))`; the `conditions.js` engine
uses the same `α`, `β` and posterior mean. -/
theorem posterior_update_formulas :
    (∀ allData : List RawRecord,
      Unnamed0.hierarchicalBayesian allData
        = allData.map (fun d =>
            Unnamed0.deckResult (Unnamed0.priorAlpha allData)
              (Unnamed0.priorBeta allData)
              (Unnamed0.getMetaAdjustmentFactor allData.length)
              d.wins d.losses d.ties)) ∧
    (∀ (pA pB adj : ℚ) (w l t : ℕ),
      (Unnamed0.deckResult pA pB adj w l t).posteriorMean
          = (pA + w + 0.5 * t) / ((pA + w + 0.5 * t) + (pB + l + 0.5 * t)) ∧
      (Unnamed0.deckResult pA pB adj w l t).posteriorVariance
          = ((pA + w + 0.5 * t) * (pB + l + 0.5 * t))
            / (((pA + w + 0.5 * t) + (pB + l + 0.5 * t)) ^ 2
               * ((pA + w + 0.5 * t) + (pB + l + 0.5 * t) + 1))) ∧
    (∀ (pc pA pB bz avg : ℚ) (tg w l t : ℕ),
      (ConditionsJs.deckResult pc pA pB bz avg tg w l t).posteriorMean
          = (pA + w + 0.5 * t) / ((pA + w + 0.5 * t) + (pB + l + 0.5 * t))) := by
  refine ⟨fun _ => rfl, fun pA pB adj w l t => ?_, fun pc pA pB bz avg tg w l t => ?_⟩
  · constructor
    · show (pA + w + 0.5 * t) / (pA + w + 0.5 * t + (pB + l + 0.5 * t)) = _
      ring_nf
    · show (pA + w + 0.5 * t) * (pB + l + 0.5 * t)
          / ((pA + w + 0.5 * t + (pB + l + 0.5 * t)) ^ 2
             * (pA + w + 0.5 * t + (pB + l + 0.5 * t) + 1)) = _
      ring_nf
  · show (pA + (w + 0.5 * t)) / (pA + (w + 0.5 * t) + (pB + (l + 0.5 * t))) = _
    ring_nf

/-! ### C10: ratings are clamped to [0, 0.99·scale] -/

/-- The clamped lower bound of the `part_000` engine is always in
`[0, 0.99]`. -/
theorem deckResult_lowerBound_mem (pA pB adj : ℚ) (w l t : ℕ) :
    0 ≤ (Unnamed0.deckResult pA pB adj w l t).lowerBound ∧
      (Unnamed0.deckResult pA pB adj w l t).lowerBound ≤ 0.99 := by
  constructor
  · exact le_min (by norm_num) (le_max_left _ _)
  · exact min_le_left _ _

/-- The `sampleSizeFactor` of the `conditions.js` engine lies in
`[0, 1]`. -/
theorem sampleSizeFactor_mem (n : ℕ) :
    0 ≤ ConditionsJs.sampleSizeFactor n ∧ ConditionsJs.sampleSizeFactor n ≤ 1 := by
  constructor
  · apply le_min zero_le_one
    apply div_nonneg
    · apply Real.logb_nonneg (by norm_num)
      have h0 : (0 : ℝ) ≤ (n : ℝ) := Nat.cast_nonneg n
      linarith
    · apply le_of_lt
      apply Real.logb_pos (by norm_num) (by norm_num)
  · exact min_le_left _ _

/-- The `effectiveSampleSize` of the `conditions.js` engine is
nonnegative. -/
theorem effectiveSampleSize_nonneg (n tg : ℕ) :
    0 ≤ ConditionsJs.effectiveSampleSize n tg := by
  unfold ConditionsJs.effectiveSampleSize
  have hlog : 0 ≤ Real.logb 10 ((tg : ℝ) + 1) := by
    apply Real.logb_nonneg (by norm_num)
    have h0 : (0 : ℝ) ≤ (tg : ℝ) := Nat.cast_nonneg tg
    linarith
  have hdamp : 0 ≤ min (1 : ℝ) (Real.logb 10 ((tg : ℝ) + 1) / 6) :=
    le_min zero_le_one (div_nonneg hlog (by norm_num))
  apply le_min
  · apply mul_nonneg (Nat.cast_nonneg n)
    linarith
  · positivity

/-- The final bound of the `conditions.js` engine is always in
`[0, 0.99]` (the prior center handed to it is at least 0.01 and the
average games per deck is nonnegative, as in the caller). -/
theorem cjs_deckResult_bound_mem (pc pA pB bz avg : ℚ) (tg w l t : ℕ)
    (hpc : (0 : ℚ) ≤ pc) (havg : (0 : ℚ) ≤ avg) :
    0 ≤ (ConditionsJs.deckResult pc pA pB bz avg tg w l t).adjustedLowerBound ∧
      (ConditionsJs.deckResult pc pA pB bz avg tg w l t).adjustedLowerBound
        ≤ 0.99 := by
  have hssf := sampleSizeFactor_mem (w + l + t)
  have heff := effectiveSampleSize_nonneg (w + l + t) tg
  have hwilson : 0 ≤ ConditionsJs.wilsonScoreLowerBound
      (((w : ℚ) + 0.5 * (t : ℚ) : ℚ) : ℝ) (w + l + t)
      (ConditionsJs.deckZ (bz : ℝ) (w + l + t)) := by
    unfold ConditionsJs.wilsonScoreLowerBound
    split
    · exact le_refl 0
    · exact le_max_left _ _
  have hreg : Real.exp (-(ConditionsJs.effectiveSampleSize (w + l + t) tg
      / ((avg : ℝ) * 2))) ≤ 1 := by
    rw [Real.exp_le_one_iff]
    rw [neg_nonpos]
    apply div_nonneg heff
    have : (0 : ℝ) ≤ (avg : ℝ) := by exact_mod_cast havg
    linarith
  have hregpos : 0 < Real.exp (-(ConditionsJs.effectiveSampleSize (w + l + t) tg
      / ((avg : ℝ) * 2))) := Real.exp_pos _
  have hbeta : 0 ≤ max (0 : ℝ)
      ((((pA + ((w : ℚ) + 0.5 * t)) / ((pA + ((w : ℚ) + 0.5 * t)) + (pB + ((l : ℚ) + 0.5 * t))) : ℚ) : ℝ)
        - ConditionsJs.deckZ (bz : ℝ) (w + l + t)
          * Real.sqrt ((((pA + ((w : ℚ) + 0.5 * t)) * (pB + ((l : ℚ) + 0.5 * t))
            / (((pA + ((w : ℚ) + 0.5 * t)) + (pB + ((l : ℚ) + 0.5 * t))) ^ 2
              * ((pA + ((w : ℚ) + 0.5 * t)) + (pB + ((l : ℚ) + 0.5 * t)) + 1)) : ℚ) : ℝ))) :=
    le_max_left _ _
  have hquality : 0 ≤ min (0.02 : ℝ)
      ((ConditionsJs.effectiveSampleSize (w + l + t) tg / (tg : ℝ)) * 0.5) := by
    apply le_min (by norm_num)
    apply mul_nonneg _ (by norm_num)
    exact div_nonneg heff (Nat.cast_nonneg tg)
  constructor
  · apply le_min (by norm_num)
    have hpcR : (0 : ℝ) ≤ ((pc : ℚ) : ℝ) := by exact_mod_cast hpc
    have hcomb : 0 ≤ ConditionsJs.sampleSizeFactor (w + l + t)
          * ConditionsJs.wilsonScoreLowerBound (((w : ℚ) + 0.5 * (t : ℚ) : ℚ) : ℝ)
            (w + l + t) (ConditionsJs.deckZ (bz : ℝ) (w + l + t))
        + (1 - ConditionsJs.sampleSizeFactor (w + l + t)) * _ :=
      add_nonneg (mul_nonneg hssf.1 hwilson)
        (mul_nonneg (by linarith [hssf.2]) hbeta)
    refine add_nonneg (add_nonneg (mul_nonneg ?_ ?_) ?_) hquality
    · exact hcomb
    · linarith [hreg]
    · exact mul_nonneg hpcR (le_of_lt hregpos)
  · exact min_le_left _ _

/-- C10: for every population in which every record has at least one
match, every rating of the `part_000`/`part_001` pipeline lies in
`[0, 178.2]` (0.99 × 180), and every bound the `conditions.js` engine
produces yields a rating in `[0, 173.25]` (0.99 × 175): the confidence
bound is clamped to `[0, 0.99]` before scaling, so ratings are bounded
above even though the specification treats `rating` as unbounded. -/
theorem ratings_bounded (decks : List RawRecord)
    (_h : ∀ d ∈ decks, 1 ≤ d.wins + d.losses + d.ties) :
    (pipeline decks).Forall (fun e => 0 ≤ e.rating ∧ e.rating ≤ 178.2) ∧
    (ConditionsJs.hierarchicalBayesian decks).Forall (fun res =>
      0 ≤ ConditionsJs.calculateRating res.adjustedLowerBound ∧
      ConditionsJs.calculateRating res.adjustedLowerBound ≤ 173.25) := by
  constructor
  · rw [List.forall_iff_forall_mem]
    intro e he
    rw [pipeline] at he
    simp only [enrichStep7] at he
    obtain ⟨d6, hd6, rfl⟩ := List.mem_map.mp he
    show 0 ≤ d6.rating ∧ d6.rating ≤ 178.2
    have h4 : d6.toEnriched4
        ∈ enrichStep4 (enrichStep3 (enrichStep2 (enrichStep1 decks))) :=
      (enrichStep6_perm _).mem_iff.mp (List.mem_map_of_mem _ hd6)
    simp only [enrichStep4] at h4
    obtain ⟨p, hp, hpe⟩ := List.mem_map.mp h4
    have hrat : d6.toEnriched4.rating
        = Unnamed0.calculateStrength p.2.lowerBound := by rw [← hpe]
    have hmem2 : p.2 ∈ Unnamed0.hierarchicalBayesian
        ((enrichStep3 (enrichStep2 (enrichStep1 decks))).map
          (fun d => d.toEnriched2.toEnriched1.toRawRecord)) := by
      have := List.of_mem_zip (a := p.1) (b := p.2) (by simpa using hp)
      exact this.2
    have hb : 0 ≤ p.2.lowerBound ∧ p.2.lowerBound ≤ 0.99 := by
      simp only [Unnamed0.hierarchicalBayesian] at hmem2
      obtain ⟨r0, _, hre⟩ := List.mem_map.mp hmem2
      rw [← hre]
      exact deckResult_lowerBound_mem _ _ _ _ _ _
    show 0 ≤ d6.toEnriched4.rating ∧ d6.toEnriched4.rating ≤ 178.2
    rw [hrat]
    unfold Unnamed0.calculateStrength
    constructor
    · nlinarith [hb.1]
    · nlinarith [hb.2]
  · rw [List.forall_iff_forall_mem]
    intro res hres
    simp only [ConditionsJs.hierarchicalBayesian] at hres
    obtain ⟨r0, _, rfl⟩ := List.mem_map.mp hres
    have hpc : (0 : ℚ) ≤ ConditionsJs.priorCenter decks :=
      le_trans (by norm_num) (le_max_left _ _)
    have havg : (0 : ℚ) ≤ ((ConditionsJs.totalTournamentGames decks : ℚ))
        / ((decks.length : ℚ)) :=
      div_nonneg (Nat.cast_nonneg _) (Nat.cast_nonneg _)
    have hb := cjs_deckResult_bound_mem (ConditionsJs.priorCenter decks)
      (ConditionsJs.priorAlpha decks) (ConditionsJs.priorBeta decks)
      (ConditionsJs.baseZ decks)
      ((ConditionsJs.totalTournamentGames decks : ℚ) / (decks.length : ℚ))
      (ConditionsJs.totalTournamentGames decks) r0.wins r0.losses r0.ties
      hpc havg
    unfold ConditionsJs.calculateRating
    constructor
    · nlinarith [hb.1]
    · nlinarith [hb.2]

/-- C10 witness: a one-record population with one match. -/
theorem ratings_bounded_witness :
    (pipeline [(⟨"W", 1, 1, 0, 0⟩ : RawRecord)]).Forall
      (fun e => 0 ≤ e.rating ∧ e.rating ≤ 178.2) ∧
    (ConditionsJs.hierarchicalBayesian [(⟨"W", 1, 1, 0, 0⟩ : RawRecord)]).Forall
      (fun res =>
        0 ≤ ConditionsJs.calculateRating res.adjustedLowerBound ∧
        ConditionsJs.calculateRating res.adjustedLowerBound ≤ 173.25) :=
  ratings_bounded [⟨"W", 1, 1, 0, 0⟩] (by simp)


/-! ### C9: the dynamic z-score is non-increasing in the sample size

The breakpoint interpolation `zInterp` is analysed segment by segment:
an equation lemma per segment, bounds of each segment's values, within-
segment monotonicity, and tail/low bounds chained across segments. -/

namespace Unnamed0

/-- The interpolated value stays between the two endpoint z-scores. -/
theorem lerp_bounds (n1 n2 z1 z2 q : ℚ) (hn : n1 < n2) (hz : z2 ≤ z1)
    (hq1 : n1 ≤ q) (hq2 : q ≤ n2) :
    z2 ≤ lerp n1 n2 z1 z2 q ∧ lerp n1 n2 z1 z2 q ≤ z1 := by
  unfold lerp
  have hden : (0 : ℚ) < n2 - n1 := by linarith
  have hp0 : 0 ≤ (q - n1) / (n2 - n1) := div_nonneg (by linarith) hden.le
  have hp1 : (q - n1) / (n2 - n1) ≤ 1 := (div_le_one hden).mpr (by linarith)
  constructor
  · nlinarith [mul_nonneg (by linarith : (0:ℚ) ≤ 1 - (q - n1) / (n2 - n1))
      (sub_nonneg.mpr hz)]
  · nlinarith [mul_nonneg hp0 (sub_nonneg.mpr hz)]

/-- The interpolation is non-increasing when the right z-score is not
above the left one. -/
theorem lerp_anti (n1 n2 z1 z2 q q' : ℚ) (hn : n1 < n2) (hz : z2 ≤ z1)
    (hqq : q ≤ q') :
    lerp n1 n2 z1 z2 q' ≤ lerp n1 n2 z1 z2 q := by
  unfold lerp
  have hden : (0 : ℚ) < n2 - n1 := by linarith
  have hinv : 0 < (n2 - n1)⁻¹ := inv_pos.mpr hden
  rw [div_eq_mul_inv, div_eq_mul_inv]
  nlinarith [mul_nonneg (mul_nonneg (sub_nonneg.mpr hqq) hinv.le)
    (sub_nonneg.mpr hz)]


/-- `zInterp` agrees with the segment-0 interpolation. -/
theorem zInterp_eq_seg0 (q : ℚ) (h1 : 1 ≤ q) (h2 : q ≤ 5) :
    zInterp q = lerp 1 5 3.536 3.463 q := by
  unfold zInterp
  rw [if_pos ⟨h1, h2⟩]

/-- `zInterp` agrees with the segment-1 interpolation (strictly right
of the segment's left breakpoint). -/
theorem zInterp_eq_seg1 (q : ℚ) (h1 : 5 < q) (h2 : q ≤ 10) :
    zInterp q = lerp 5 10 3.463 3.404 q := by
  unfold zInterp
  rw [if_neg (by rintro ⟨-, hcon⟩; linarith),
      if_pos ⟨by linarith, h2⟩]

/-- `zInterp` agrees with the segment-2 interpolation (strictly right
of the segment's left breakpoint). -/
theorem zInterp_eq_seg2 (q : ℚ) (h1 : 10 < q) (h2 : q ≤ 20) :
    zInterp q = lerp 10 20 3.404 3.350 q := by
  unfold zInterp
  rw [if_neg (by rintro ⟨-, hcon⟩; linarith),
      if_neg (by rintro ⟨-, hcon⟩; linarith),
      if_pos ⟨by linarith, h2⟩]

/-- `zInterp` agrees with the segment-3 interpolation (strictly right
of the segment's left breakpoint). -/
theorem zInterp_eq_seg3 (q : ℚ) (h1 : 20 < q) (h2 : q ≤ 30) :
    zInterp q = lerp 20 30 3.350 3.302 q := by
  unfold zInterp
  rw [if_neg (by rintro ⟨-, hcon⟩; linarith),
      if_neg (by rintro ⟨-, hcon⟩; linarith),
      if_neg (by rintro ⟨-, hcon⟩; linarith),
      if_pos ⟨by linarith, h2⟩]

/-- `zInterp` agrees with the segment-4 interpolation (strictly right
of the segment's left breakpoint). -/
theorem zInterp_eq_seg4 (q : ℚ) (h1 : 30 < q) (h2 : q ≤ 50) :
    zInterp q = lerp 30 50 3.302 3.256 q := by
  unfold zInterp
  rw [if_neg (by rintro ⟨-, hcon⟩; linarith),
      if_neg (by rintro ⟨-, hcon⟩; linarith),
      if_neg (by rintro ⟨-, hcon⟩; linarith),
      if_neg (by rintro ⟨-, hcon⟩; linarith),
      if_pos ⟨by linarith, h2⟩]

/-- `zInterp` agrees with the segment-5 interpolation (strictly right
of the segment's left breakpoint). -/
theorem zInterp_eq_seg5 (q : ℚ) (h1 : 50 < q) (h2 : q ≤ 100) :
    zInterp q = lerp 50 100 3.256 3.201 q := by
  unfold zInterp
  rw [if_neg (by rintro ⟨-, hcon⟩; linarith),
      if_neg (by rintro ⟨-, hcon⟩; linarith),
      if_neg (by rintro ⟨-, hcon⟩; linarith),
      if_neg (by rintro ⟨-, hcon⟩; linarith),
      if_neg (by rintro ⟨-, hcon⟩; linarith),
      if_pos ⟨by linarith, h2⟩]

/-- `zInterp` agrees with the segment-6 interpolation (strictly right
of the segment's left breakpoint). -/
theorem zInterp_eq_seg6 (q : ℚ) (h1 : 100 < q) (h2 : q ≤ 200) :
    zInterp q = lerp 100 200 3.201 3.151 q := by
  unfold zInterp
  rw [if_neg (by rintro ⟨-, hcon⟩; linarith),
      if_neg (by rintro ⟨-, hcon⟩; linarith),
      if_neg (by rintro ⟨-, hcon⟩; linarith),
      if_neg (by rintro ⟨-, hcon⟩; linarith),
      if_neg (by rintro ⟨-, hcon⟩; linarith),
      if_neg (by rintro ⟨-, hcon⟩; linarith),
      if_pos ⟨by linarith, h2⟩]

/-- `zInterp` agrees with the segment-7 interpolation (strictly right
of the segment's left breakpoint). -/
theorem zInterp_eq_seg7 (q : ℚ) (h1 : 200 < q) (h2 : q ≤ 500) :
    zInterp q = lerp 200 500 3.151 3.101 q := by
  unfold zInterp
  rw [if_neg (by rintro ⟨-, hcon⟩; linarith),
      if_neg (by rintro ⟨-, hcon⟩; linarith),
      if_neg (by rintro ⟨-, hcon⟩; linarith),
      if_neg (by rintro ⟨-, hcon⟩; linarith),
      if_neg (by rintro ⟨-, hcon⟩; linarith),
      if_neg (by rintro ⟨-, hcon⟩; linarith),
      if_neg (by rintro ⟨-, hcon⟩; linarith),
      if_pos ⟨by linarith, h2⟩]

/-- `zInterp` agrees with the segment-8 interpolation (strictly right
of the segment's left breakpoint). -/
theorem zInterp_eq_seg8 (q : ℚ) (h1 : 500 < q) (h2 : q ≤ 1000) :
    zInterp q = lerp 500 1000 3.101 3.063 q := by
  unfold zInterp
  rw [if_neg (by rintro ⟨-, hcon⟩; linarith),
      if_neg (by rintro ⟨-, hcon⟩; linarith),
      if_neg (by rintro ⟨-, hcon⟩; linarith),
      if_neg (by rintro ⟨-, hcon⟩; linarith),
      if_neg (by rintro ⟨-, hcon⟩; linarith),
      if_neg (by rintro ⟨-, hcon⟩; linarith),
      if_neg (by rintro ⟨-, hcon⟩; linarith),
      if_neg (by rintro ⟨-, hcon⟩; linarith),
      if_pos ⟨by linarith, h2⟩]

/-- `zInterp` agrees with the segment-9 interpolation (strictly right
of the segment's left breakpoint). -/
theorem zInterp_eq_seg9 (q : ℚ) (h1 : 1000 < q) (h2 : q ≤ 2000) :
    zInterp q = lerp 1000 2000 3.063 3.035 q := by
  unfold zInterp
  rw [if_neg (by rintro ⟨-, hcon⟩; linarith),
      if_neg (by rintro ⟨-, hcon⟩; linarith),
      if_neg (by rintro ⟨-, hcon⟩; linarith),
      if_neg (by rintro ⟨-, hcon⟩; linarith),
      if_neg (by rintro ⟨-, hcon⟩; linarith),
      if_neg (by rintro ⟨-, hcon⟩; linarith),
      if_neg (by rintro ⟨-, hcon⟩; linarith),
      if_neg (by rintro ⟨-, hcon⟩; linarith),
      if_neg (by rintro ⟨-, hcon⟩; linarith),
      if_pos ⟨by linarith, h2⟩]

/-- `zInterp` agrees with the segment-10 interpolation (strictly right
of the segment's left breakpoint). -/
theorem zInterp_eq_seg10 (q : ℚ) (h1 : 2000 < q) (h2 : q ≤ 5000) :
    zInterp q = lerp 2000 5000 3.035 3.007 q := by
  unfold zInterp
  rw [if_neg (by rintro ⟨-, hcon⟩; linarith),
      if_neg (by rintro ⟨-, hcon⟩; linarith),
      if_neg (by rintro ⟨-, hcon⟩; linarith),
      if_neg (by rintro ⟨-, hcon⟩; linarith),
      if_neg (by rintro ⟨-, hcon⟩; linarith),
      if_neg (by rintro ⟨-, hcon⟩; linarith),
      if_neg (by rintro ⟨-, hcon⟩; linarith),
      if_neg (by rintro ⟨-, hcon⟩; linarith),
      if_neg (by rintro ⟨-, hcon⟩; linarith),
      if_neg (by rintro ⟨-, hcon⟩; linarith),
      if_pos ⟨by linarith, h2⟩]

/-- `zInterp` agrees with the segment-11 interpolation (strictly right
of the segment's left breakpoint). -/
theorem zInterp_eq_seg11 (q : ℚ) (h1 : 5000 < q) (h2 : q ≤ 10000) :
    zInterp q = lerp 5000 10000 3.007 2.987 q := by
  unfold zInterp
  rw [if_neg (by rintro ⟨-, hcon⟩; linarith),
      if_neg (by rintro ⟨-, hcon⟩; linarith),
      if_neg (by rintro ⟨-, hcon⟩; linarith),
      if_neg (by rintro ⟨-, hcon⟩; linarith),
      if_neg (by rintro ⟨-, hcon⟩; linarith),
      if_neg (by rintro ⟨-, hcon⟩; linarith),
      if_neg (by rintro ⟨-, hcon⟩; linarith),
      if_neg (by rintro ⟨-, hcon⟩; linarith),
      if_neg (by rintro ⟨-, hcon⟩; linarith),
      if_neg (by rintro ⟨-, hcon⟩; linarith),
      if_neg (by rintro ⟨-, hcon⟩; linarith),
      if_pos ⟨by linarith, h2⟩]

/-- `zInterp` agrees with the segment-12 interpolation (strictly right
of the segment's left breakpoint). -/
theorem zInterp_eq_seg12 (q : ℚ) (h1 : 10000 < q) (h2 : q ≤ 20000) :
    zInterp q = lerp 10000 20000 2.987 2.972 q := by
  unfold zInterp
  rw [if_neg (by rintro ⟨-, hcon⟩; linarith),
      if_neg (by rintro ⟨-, hcon⟩; linarith),
      if_neg (by rintro ⟨-, hcon⟩; linarith),
      if_neg (by rintro ⟨-, hcon⟩; linarith),
      if_neg (by rintro ⟨-, hcon⟩; linarith),
      if_neg (by rintro ⟨-, hcon⟩; linarith),
      if_neg (by rintro ⟨-, hcon⟩; linarith),
      if_neg (by rintro ⟨-, hcon⟩; linarith),
      if_neg (by rintro ⟨-, hcon⟩; linarith),
      if_neg (by rintro ⟨-, hcon⟩; linarith),
      if_neg (by rintro ⟨-, hcon⟩; linarith),
      if_neg (by rintro ⟨-, hcon⟩; linarith),
      if_pos ⟨by linarith, h2⟩]

/-- `zInterp` agrees with the segment-13 interpolation (strictly right
of the segment's left breakpoint). -/
theorem zInterp_eq_seg13 (q : ℚ) (h1 : 20000 < q) (h2 : q ≤ 50000) :
    zInterp q = lerp 20000 50000 2.972 2.955 q := by
  unfold zInterp
  rw [if_neg (by rintro ⟨-, hcon⟩; linarith),
      if_neg (by rintro ⟨-, hcon⟩; linarith),
      if_neg (by rintro ⟨-, hcon⟩; linarith),
      if_neg (by rintro ⟨-, hcon⟩; linarith),
      if_neg (by rintro ⟨-, hcon⟩; linarith),
      if_neg (by rintro ⟨-, hcon⟩; linarith),
      if_neg (by rintro ⟨-, hcon⟩; linarith),
      if_neg (by rintro ⟨-, hcon⟩; linarith),
      if_neg (by rintro ⟨-, hcon⟩; linarith),
      if_neg (by rintro ⟨-, hcon⟩; linarith),
      if_neg (by rintro ⟨-, hcon⟩; linarith),
      if_neg (by rintro ⟨-, hcon⟩; linarith),
      if_neg (by rintro ⟨-, hcon⟩; linarith),
      if_pos ⟨by linarith, h2⟩]

/-- `zInterp` agrees with the segment-14 interpolation (strictly right
of the segment's left breakpoint). -/
theorem zInterp_eq_seg14 (q : ℚ) (h1 : 50000 < q) (h2 : q ≤ 100000) :
    zInterp q = lerp 50000 100000 2.955 2.943 q := by
  unfold zInterp
  rw [if_neg (by rintro ⟨-, hcon⟩; linarith),
      if_neg (by rintro ⟨-, hcon⟩; linarith),
      if_neg (by rintro ⟨-, hcon⟩; linarith),
      if_neg (by rintro ⟨-, hcon⟩; linarith),
      if_neg (by rintro ⟨-, hcon⟩; linarith),
      if_neg (by rintro ⟨-, hcon⟩; linarith),
      if_neg (by rintro ⟨-, hcon⟩; linarith),
      if_neg (by rintro ⟨-, hcon⟩; linarith),
      if_neg (by rintro ⟨-, hcon⟩; linarith),
      if_neg (by rintro ⟨-, hcon⟩; linarith),
      if_neg (by rintro ⟨-, hcon⟩; linarith),
      if_neg (by rintro ⟨-, hcon⟩; linarith),
      if_neg (by rintro ⟨-, hcon⟩; linarith),
      if_neg (by rintro ⟨-, hcon⟩; linarith),
      if_pos ⟨by linarith, h2⟩]

/-- `zInterp` agrees with the segment-15 interpolation (strictly right
of the segment's left breakpoint). -/
theorem zInterp_eq_seg15 (q : ℚ) (h1 : 100000 < q) (h2 : q ≤ 500000) :
    zInterp q = lerp 100000 500000 2.943 2.931 q := by
  unfold zInterp
  rw [if_neg (by rintro ⟨-, hcon⟩; linarith),
      if_neg (by rintro ⟨-, hcon⟩; linarith),
      if_neg (by rintro ⟨-, hcon⟩; linarith),
      if_neg (by rintro ⟨-, hcon⟩; linarith),
      if_neg (by rintro ⟨-, hcon⟩; linarith),
      if_neg (by rintro ⟨-, hcon⟩; linarith),
      if_neg (by rintro ⟨-, hcon⟩; linarith),
      if_neg (by rintro ⟨-, hcon⟩; linarith),
      if_neg (by rintro ⟨-, hcon⟩; linarith),
      if_neg (by rintro ⟨-, hcon⟩; linarith),
      if_neg (by rintro ⟨-, hcon⟩; linarith),
      if_neg (by rintro ⟨-, hcon⟩; linarith),
      if_neg (by rintro ⟨-, hcon⟩; linarith),
      if_neg (by rintro ⟨-, hcon⟩; linarith),
      if_neg (by rintro ⟨-, hcon⟩; linarith),
      if_pos ⟨by linarith, h2⟩]

/-- `zInterp` agrees with the segment-16 interpolation (strictly right
of the segment's left breakpoint). -/
theorem zInterp_eq_seg16 (q : ℚ) (h1 : 500000 < q) (h2 : q ≤ 1000000) :
    zInterp q = lerp 500000 1000000 2.931 2.931 q := by
  unfold zInterp
  rw [if_neg (by rintro ⟨-, hcon⟩; linarith),
      if_neg (by rintro ⟨-, hcon⟩; linarith),
      if_neg (by rintro ⟨-, hcon⟩; linarith),
      if_neg (by rintro ⟨-, hcon⟩; linarith),
      if_neg (by rintro ⟨-, hcon⟩; linarith),
      if_neg (by rintro ⟨-, hcon⟩; linarith),
      if_neg (by rintro ⟨-, hcon⟩; linarith),
      if_neg (by rintro ⟨-, hcon⟩; linarith),
      if_neg (by rintro ⟨-, hcon⟩; linarith),
      if_neg (by rintro ⟨-, hcon⟩; linarith),
      if_neg (by rintro ⟨-, hcon⟩; linarith),
      if_neg (by rintro ⟨-, hcon⟩; linarith),
      if_neg (by rintro ⟨-, hcon⟩; linarith),
      if_neg (by rintro ⟨-, hcon⟩; linarith),
      if_neg (by rintro ⟨-, hcon⟩; linarith),
      if_neg (by rintro ⟨-, hcon⟩; linarith),
      if_pos ⟨by linarith, h2⟩]

/-- Bounds of `zInterp` on segment 0. -/
theorem zInterp_seg0 (q : ℚ) (h1 : 1 ≤ q) (h2 : q ≤ 5) :
    3.463 ≤ zInterp q ∧ zInterp q ≤ 3.536 := by
  rw [zInterp_eq_seg0 q h1 h2]
  exact lerp_bounds 1 5 3.536 3.463 q (by norm_num) (by norm_num) h1 h2

/-- Bounds of `zInterp` on segment 1. -/
theorem zInterp_seg1 (q : ℚ) (h1 : 5 ≤ q) (h2 : q ≤ 10) :
    3.404 ≤ zInterp q ∧ zInterp q ≤ 3.463 := by
  rcases eq_or_lt_of_le h1 with heq | hlt
  · rw [← heq, zInterp_eq_seg0 _ (by norm_num) (by norm_num)]
    unfold lerp
    norm_num
  · rw [zInterp_eq_seg1 q hlt h2]
    exact lerp_bounds 5 10 3.463 3.404 q (by norm_num) (by norm_num)
      (le_of_lt hlt) h2

/-- Bounds of `zInterp` on segment 2. -/
theorem zInterp_seg2 (q : ℚ) (h1 : 10 ≤ q) (h2 : q ≤ 20) :
    3.350 ≤ zInterp q ∧ zInterp q ≤ 3.404 := by
  rcases eq_or_lt_of_le h1 with heq | hlt
  · rw [← heq, zInterp_eq_seg1 _ (by norm_num) (by norm_num)]
    unfold lerp
    norm_num
  · rw [zInterp_eq_seg2 q hlt h2]
    exact lerp_bounds 10 20 3.404 3.350 q (by norm_num) (by norm_num)
      (le_of_lt hlt) h2

/-- Bounds of `zInterp` on segment 3. -/
theorem zInterp_seg3 (q : ℚ) (h1 : 20 ≤ q) (h2 : q ≤ 30) :
    3.302 ≤ zInterp q ∧ zInterp q ≤ 3.350 := by
  rcases eq_or_lt_of_le h1 with heq | hlt
  · rw [← heq, zInterp_eq_seg2 _ (by norm_num) (by norm_num)]
    unfold lerp
    norm_num
  · rw [zInterp_eq_seg3 q hlt h2]
    exact lerp_bounds 20 30 3.350 3.302 q (by norm_num) (by norm_num)
      (le_of_lt hlt) h2

/-- Bounds of `zInterp` on segment 4. -/
theorem zInterp_seg4 (q : ℚ) (h1 : 30 ≤ q) (h2 : q ≤ 50) :
    3.256 ≤ zInterp q ∧ zInterp q ≤ 3.302 := by
  rcases eq_or_lt_of_le h1 with heq | hlt
  · rw [← heq, zInterp_eq_seg3 _ (by norm_num) (by norm_num)]
    unfold lerp
    norm_num
  · rw [zInterp_eq_seg4 q hlt h2]
    exact lerp_bounds 30 50 3.302 3.256 q (by norm_num) (by norm_num)
      (le_of_lt hlt) h2

/-- Bounds of `zInterp` on segment 5. -/
theorem zInterp_seg5 (q : ℚ) (h1 : 50 ≤ q) (h2 : q ≤ 100) :
    3.201 ≤ zInterp q ∧ zInterp q ≤ 3.256 := by
  rcases eq_or_lt_of_le h1 with heq | hlt
  · rw [← heq, zInterp_eq_seg4 _ (by norm_num) (by norm_num)]
    unfold lerp
    norm_num
  · rw [zInterp_eq_seg5 q hlt h2]
    exact lerp_bounds 50 100 3.256 3.201 q (by norm_num) (by norm_num)
      (le_of_lt hlt) h2

/-- Bounds of `zInterp` on segment 6. -/
theorem zInterp_seg6 (q : ℚ) (h1 : 100 ≤ q) (h2 : q ≤ 200) :
    3.151 ≤ zInterp q ∧ zInterp q ≤ 3.201 := by
  rcases eq_or_lt_of_le h1 with heq | hlt
  · rw [← heq, zInterp_eq_seg5 _ (by norm_num) (by norm_num)]
    unfold lerp
    norm_num
  · rw [zInterp_eq_seg6 q hlt h2]
    exact lerp_bounds 100 200 3.201 3.151 q (by norm_num) (by norm_num)
      (le_of_lt hlt) h2

/-- Bounds of `zInterp` on segment 7. -/
theorem zInterp_seg7 (q : ℚ) (h1 : 200 ≤ q) (h2 : q ≤ 500) :
    3.101 ≤ zInterp q ∧ zInterp q ≤ 3.151 := by
  rcases eq_or_lt_of_le h1 with heq | hlt
  · rw [← heq, zInterp_eq_seg6 _ (by norm_num) (by norm_num)]
    unfold lerp
    norm_num
  · rw [zInterp_eq_seg7 q hlt h2]
    exact lerp_bounds 200 500 3.151 3.101 q (by norm_num) (by norm_num)
      (le_of_lt hlt) h2

/-- Bounds of `zInterp` on segment 8. -/
theorem zInterp_seg8 (q : ℚ) (h1 : 500 ≤ q) (h2 : q ≤ 1000) :
    3.063 ≤ zInterp q ∧ zInterp q ≤ 3.101 := by
  rcases eq_or_lt_of_le h1 with heq | hlt
  · rw [← heq, zInterp_eq_seg7 _ (by norm_num) (by norm_num)]
    unfold lerp
    norm_num
  · rw [zInterp_eq_seg8 q hlt h2]
    exact lerp_bounds 500 1000 3.101 3.063 q (by norm_num) (by norm_num)
      (le_of_lt hlt) h2

/-- Bounds of `zInterp` on segment 9. -/
theorem zInterp_seg9 (q : ℚ) (h1 : 1000 ≤ q) (h2 : q ≤ 2000) :
    3.035 ≤ zInterp q ∧ zInterp q ≤ 3.063 := by
  rcases eq_or_lt_of_le h1 with heq | hlt
  · rw [← heq, zInterp_eq_seg8 _ (by norm_num) (by norm_num)]
    unfold lerp
    norm_num
  · rw [zInterp_eq_seg9 q hlt h2]
    exact lerp_bounds 1000 2000 3.063 3.035 q (by norm_num) (by norm_num)
      (le_of_lt hlt) h2

/-- Bounds of `zInterp` on segment 10. -/
theorem zInterp_seg10 (q : ℚ) (h1 : 2000 ≤ q) (h2 : q ≤ 5000) :
    3.007 ≤ zInterp q ∧ zInterp q ≤ 3.035 := by
  rcases eq_or_lt_of_le h1 with heq | hlt
  · rw [← heq, zInterp_eq_seg9 _ (by norm_num) (by norm_num)]
    unfold lerp
    norm_num
  · rw [zInterp_eq_seg10 q hlt h2]
    exact lerp_bounds 2000 5000 3.035 3.007 q (by norm_num) (by norm_num)
      (le_of_lt hlt) h2

/-- Bounds of `zInterp` on segment 11. -/
theorem zInterp_seg11 (q : ℚ) (h1 : 5000 ≤ q) (h2 : q ≤ 10000) :
    2.987 ≤ zInterp q ∧ zInterp q ≤ 3.007 := by
  rcases eq_or_lt_of_le h1 with heq | hlt
  · rw [← heq, zInterp_eq_seg10 _ (by norm_num) (by norm_num)]
    unfold lerp
    norm_num
  · rw [zInterp_eq_seg11 q hlt h2]
    exact lerp_bounds 5000 10000 3.007 2.987 q (by norm_num) (by norm_num)
      (le_of_lt hlt) h2

/-- Bounds of `zInterp` on segment 12. -/
theorem zInterp_seg12 (q : ℚ) (h1 : 10000 ≤ q) (h2 : q ≤ 20000) :
    2.972 ≤ zInterp q ∧ zInterp q ≤ 2.987 := by
  rcases eq_or_lt_of_le h1 with heq | hlt
  · rw [← heq, zInterp_eq_seg11 _ (by norm_num) (by norm_num)]
    unfold lerp
    norm_num
  · rw [zInterp_eq_seg12 q hlt h2]
    exact lerp_bounds 10000 20000 2.987 2.972 q (by norm_num) (by norm_num)
      (le_of_lt hlt) h2

/-- Bounds of `zInterp` on segment 13. -/
theorem zInterp_seg13 (q : ℚ) (h1 : 20000 ≤ q) (h2 : q ≤ 50000) :
    2.955 ≤ zInterp q ∧ zInterp q ≤ 2.972 := by
  rcases eq_or_lt_of_le h1 with heq | hlt
  · rw [← heq, zInterp_eq_seg12 _ (by norm_num) (by norm_num)]
    unfold lerp
    norm_num
  · rw [zInterp_eq_seg13 q hlt h2]
    exact lerp_bounds 20000 50000 2.972 2.955 q (by norm_num) (by norm_num)
      (le_of_lt hlt) h2

/-- Bounds of `zInterp` on segment 14. -/
theorem zInterp_seg14 (q : ℚ) (h1 : 50000 ≤ q) (h2 : q ≤ 100000) :
    2.943 ≤ zInterp q ∧ zInterp q ≤ 2.955 := by
  rcases eq_or_lt_of_le h1 with heq | hlt
  · rw [← heq, zInterp_eq_seg13 _ (by norm_num) (by norm_num)]
    unfold lerp
    norm_num
  · rw [zInterp_eq_seg14 q hlt h2]
    exact lerp_bounds 50000 100000 2.955 2.943 q (by norm_num) (by norm_num)
      (le_of_lt hlt) h2

/-- Bounds of `zInterp` on segment 15. -/
theorem zInterp_seg15 (q : ℚ) (h1 : 100000 ≤ q) (h2 : q ≤ 500000) :
    2.931 ≤ zInterp q ∧ zInterp q ≤ 2.943 := by
  rcases eq_or_lt_of_le h1 with heq | hlt
  · rw [← heq, zInterp_eq_seg14 _ (by norm_num) (by norm_num)]
    unfold lerp
    norm_num
  · rw [zInterp_eq_seg15 q hlt h2]
    exact lerp_bounds 100000 500000 2.943 2.931 q (by norm_num) (by norm_num)
      (le_of_lt hlt) h2

/-- Bounds of `zInterp` on segment 16. -/
theorem zInterp_seg16 (q : ℚ) (h1 : 500000 ≤ q) (h2 : q ≤ 1000000) :
    2.931 ≤ zInterp q ∧ zInterp q ≤ 2.931 := by
  rcases eq_or_lt_of_le h1 with heq | hlt
  · rw [← heq, zInterp_eq_seg15 _ (by norm_num) (by norm_num)]
    unfold lerp
    norm_num
  · rw [zInterp_eq_seg16 q hlt h2]
    exact lerp_bounds 500000 1000000 2.931 2.931 q (by norm_num) (by norm_num)
      (le_of_lt hlt) h2

/-- Monotonicity of `zInterp` within segment 0. -/
theorem zInterp_mseg0 (q q' : ℚ) (h1 : 1 ≤ q) (hqq : q ≤ q')
    (h2 : q' ≤ 5) : zInterp q' ≤ zInterp q := by
  rw [zInterp_eq_seg0 q h1 (le_trans hqq h2),
    zInterp_eq_seg0 q' (le_trans h1 hqq) h2]
  exact lerp_anti 1 5 3.536 3.463 q q' (by norm_num) (by norm_num) hqq

/-- Monotonicity of `zInterp` within segment 1. -/
theorem zInterp_mseg1 (q q' : ℚ) (h1 : 5 ≤ q) (hqq : q ≤ q')
    (h2 : q' ≤ 10) : zInterp q' ≤ zInterp q := by
  rcases eq_or_lt_of_le h1 with heq | hlt
  · have hb := zInterp_seg1 q' (le_trans h1 hqq) h2
    rw [← heq, zInterp_eq_seg0 (5 : ℚ) (by norm_num) (by norm_num)]
    refine le_trans hb.2 ?_
    unfold lerp
    norm_num
  · rw [zInterp_eq_seg1 q hlt (le_trans hqq h2),
      zInterp_eq_seg1 q' (lt_of_lt_of_le hlt hqq) h2]
    exact lerp_anti 5 10 3.463 3.404 q q' (by norm_num) (by norm_num) hqq

/-- Monotonicity of `zInterp` within segment 2. -/
theorem zInterp_mseg2 (q q' : ℚ) (h1 : 10 ≤ q) (hqq : q ≤ q')
    (h2 : q' ≤ 20) : zInterp q' ≤ zInterp q := by
  rcases eq_or_lt_of_le h1 with heq | hlt
  · have hb := zInterp_seg2 q' (le_trans h1 hqq) h2
    rw [← heq, zInterp_eq_seg1 (10 : ℚ) (by norm_num) (by norm_num)]
    refine le_trans hb.2 ?_
    unfold lerp
    norm_num
  · rw [zInterp_eq_seg2 q hlt (le_trans hqq h2),
      zInterp_eq_seg2 q' (lt_of_lt_of_le hlt hqq) h2]
    exact lerp_anti 10 20 3.404 3.350 q q' (by norm_num) (by norm_num) hqq

/-- Monotonicity of `zInterp` within segment 3. -/
theorem zInterp_mseg3 (q q' : ℚ) (h1 : 20 ≤ q) (hqq : q ≤ q')
    (h2 : q' ≤ 30) : zInterp q' ≤ zInterp q := by
  rcases eq_or_lt_of_le h1 with heq | hlt
  · have hb := zInterp_seg3 q' (le_trans h1 hqq) h2
    rw [← heq, zInterp_eq_seg2 (20 : ℚ) (by norm_num) (by norm_num)]
    refine le_trans hb.2 ?_
    unfold lerp
    norm_num
  · rw [zInterp_eq_seg3 q hlt (le_trans hqq h2),
      zInterp_eq_seg3 q' (lt_of_lt_of_le hlt hqq) h2]
    exact lerp_anti 20 30 3.350 3.302 q q' (by norm_num) (by norm_num) hqq

/-- Monotonicity of `zInterp` within segment 4. -/
theorem zInterp_mseg4 (q q' : ℚ) (h1 : 30 ≤ q) (hqq : q ≤ q')
    (h2 : q' ≤ 50) : zInterp q' ≤ zInterp q := by
  rcases eq_or_lt_of_le h1 with heq | hlt
  · have hb := zInterp_seg4 q' (le_trans h1 hqq) h2
    rw [← heq, zInterp_eq_seg3 (30 : ℚ) (by norm_num) (by norm_num)]
    refine le_trans hb.2 ?_
    unfold lerp
    norm_num
  · rw [zInterp_eq_seg4 q hlt (le_trans hqq h2),
      zInterp_eq_seg4 q' (lt_of_lt_of_le hlt hqq) h2]
    exact lerp_anti 30 50 3.302 3.256 q q' (by norm_num) (by norm_num) hqq

/-- Monotonicity of `zInterp` within segment 5. -/
theorem zInterp_mseg5 (q q' : ℚ) (h1 : 50 ≤ q) (hqq : q ≤ q')
    (h2 : q' ≤ 100) : zInterp q' ≤ zInterp q := by
  rcases eq_or_lt_of_le h1 with heq | hlt
  · have hb := zInterp_seg5 q' (le_trans h1 hqq) h2
    rw [← heq, zInterp_eq_seg4 (50 : ℚ) (by norm_num) (by norm_num)]
    refine le_trans hb.2 ?_
    unfold lerp
    norm_num
  · rw [zInterp_eq_seg5 q hlt (le_trans hqq h2),
      zInterp_eq_seg5 q' (lt_of_lt_of_le hlt hqq) h2]
    exact lerp_anti 50 100 3.256 3.201 q q' (by norm_num) (by norm_num) hqq

/-- Monotonicity of `zInterp` within segment 6. -/
theorem zInterp_mseg6 (q q' : ℚ) (h1 : 100 ≤ q) (hqq : q ≤ q')
    (h2 : q' ≤ 200) : zInterp q' ≤ zInterp q := by
  rcases eq_or_lt_of_le h1 with heq | hlt
  · have hb := zInterp_seg6 q' (le_trans h1 hqq) h2
    rw [← heq, zInterp_eq_seg5 (100 : ℚ) (by norm_num) (by norm_num)]
    refine le_trans hb.2 ?_
    unfold lerp
    norm_num
  · rw [zInterp_eq_seg6 q hlt (le_trans hqq h2),
      zInterp_eq_seg6 q' (lt_of_lt_of_le hlt hqq) h2]
    exact lerp_anti 100 200 3.201 3.151 q q' (by norm_num) (by norm_num) hqq

/-- Monotonicity of `zInterp` within segment 7. -/
theorem zInterp_mseg7 (q q' : ℚ) (h1 : 200 ≤ q) (hqq : q ≤ q')
    (h2 : q' ≤ 500) : zInterp q' ≤ zInterp q := by
  rcases eq_or_lt_of_le h1 with heq | hlt
  · have hb := zInterp_seg7 q' (le_trans h1 hqq) h2
    rw [← heq, zInterp_eq_seg6 (200 : ℚ) (by norm_num) (by norm_num)]
    refine le_trans hb.2 ?_
    unfold lerp
    norm_num
  · rw [zInterp_eq_seg7 q hlt (le_trans hqq h2),
      zInterp_eq_seg7 q' (lt_of_lt_of_le hlt hqq) h2]
    exact lerp_anti 200 500 3.151 3.101 q q' (by norm_num) (by norm_num) hqq

/-- Monotonicity of `zInterp` within segment 8. -/
theorem zInterp_mseg8 (q q' : ℚ) (h1 : 500 ≤ q) (hqq : q ≤ q')
    (h2 : q' ≤ 1000) : zInterp q' ≤ zInterp q := by
  rcases eq_or_lt_of_le h1 with heq | hlt
  · have hb := zInterp_seg8 q' (le_trans h1 hqq) h2
    rw [← heq, zInterp_eq_seg7 (500 : ℚ) (by norm_num) (by norm_num)]
    refine le_trans hb.2 ?_
    unfold lerp
    norm_num
  · rw [zInterp_eq_seg8 q hlt (le_trans hqq h2),
      zInterp_eq_seg8 q' (lt_of_lt_of_le hlt hqq) h2]
    exact lerp_anti 500 1000 3.101 3.063 q q' (by norm_num) (by norm_num) hqq

/-- Monotonicity of `zInterp` within segment 9. -/
theorem zInterp_mseg9 (q q' : ℚ) (h1 : 1000 ≤ q) (hqq : q ≤ q')
    (h2 : q' ≤ 2000) : zInterp q' ≤ zInterp q := by
  rcases eq_or_lt_of_le h1 with heq | hlt
  · have hb := zInterp_seg9 q' (le_trans h1 hqq) h2
    rw [← heq, zInterp_eq_seg8 (1000 : ℚ) (by norm_num) (by norm_num)]
    refine le_trans hb.2 ?_
    unfold lerp
    norm_num
  · rw [zInterp_eq_seg9 q hlt (le_trans hqq h2),
      zInterp_eq_seg9 q' (lt_of_lt_of_le hlt hqq) h2]
    exact lerp_anti 1000 2000 3.063 3.035 q q' (by norm_num) (by norm_num) hqq

/-- Monotonicity of `zInterp` within segment 10. -/
theorem zInterp_mseg10 (q q' : ℚ) (h1 : 2000 ≤ q) (hqq : q ≤ q')
    (h2 : q' ≤ 5000) : zInterp q' ≤ zInterp q := by
  rcases eq_or_lt_of_le h1 with heq | hlt
  · have hb := zInterp_seg10 q' (le_trans h1 hqq) h2
    rw [← heq, zInterp_eq_seg9 (2000 : ℚ) (by norm_num) (by norm_num)]
    refine le_trans hb.2 ?_
    unfold lerp
    norm_num
  · rw [zInterp_eq_seg10 q hlt (le_trans hqq h2),
      zInterp_eq_seg10 q' (lt_of_lt_of_le hlt hqq) h2]
    exact lerp_anti 2000 5000 3.035 3.007 q q' (by norm_num) (by norm_num) hqq

/-- Monotonicity of `zInterp` within segment 11. -/
theorem zInterp_mseg11 (q q' : ℚ) (h1 : 5000 ≤ q) (hqq : q ≤ q')
    (h2 : q' ≤ 10000) : zInterp q' ≤ zInterp q := by
  rcases eq_or_lt_of_le h1 with heq | hlt
  · have hb := zInterp_seg11 q' (le_trans h1 hqq) h2
    rw [← heq, zInterp_eq_seg10 (5000 : ℚ) (by norm_num) (by norm_num)]
    refine le_trans hb.2 ?_
    unfold lerp
    norm_num
  · rw [zInterp_eq_seg11 q hlt (le_trans hqq h2),
      zInterp_eq_seg11 q' (lt_of_lt_of_le hlt hqq) h2]
    exact lerp_anti 5000 10000 3.007 2.987 q q' (by norm_num) (by norm_num) hqq

/-- Monotonicity of `zInterp` within segment 12. -/
theorem zInterp_mseg12 (q q' : ℚ) (h1 : 10000 ≤ q) (hqq : q ≤ q')
    (h2 : q' ≤ 20000) : zInterp q' ≤ zInterp q := by
  rcases eq_or_lt_of_le h1 with heq | hlt
  · have hb := zInterp_seg12 q' (le_trans h1 hqq) h2
    rw [← heq, zInterp_eq_seg11 (10000 : ℚ) (by norm_num) (by norm_num)]
    refine le_trans hb.2 ?_
    unfold lerp
    norm_num
  · rw [zInterp_eq_seg12 q hlt (le_trans hqq h2),
      zInterp_eq_seg12 q' (lt_of_lt_of_le hlt hqq) h2]
    exact lerp_anti 10000 20000 2.987 2.972 q q' (by norm_num) (by norm_num) hqq

/-- Monotonicity of `zInterp` within segment 13. -/
theorem zInterp_mseg13 (q q' : ℚ) (h1 : 20000 ≤ q) (hqq : q ≤ q')
    (h2 : q' ≤ 50000) : zInterp q' ≤ zInterp q := by
  rcases eq_or_lt_of_le h1 with heq | hlt
  · have hb := zInterp_seg13 q' (le_trans h1 hqq) h2
    rw [← heq, zInterp_eq_seg12 (20000 : ℚ) (by norm_num) (by norm_num)]
    refine le_trans hb.2 ?_
    unfold lerp
    norm_num
  · rw [zInterp_eq_seg13 q hlt (le_trans hqq h2),
      zInterp_eq_seg13 q' (lt_of_lt_of_le hlt hqq) h2]
    exact lerp_anti 20000 50000 2.972 2.955 q q' (by norm_num) (by norm_num) hqq

/-- Monotonicity of `zInterp` within segment 14. -/
theorem zInterp_mseg14 (q q' : ℚ) (h1 : 50000 ≤ q) (hqq : q ≤ q')
    (h2 : q' ≤ 100000) : zInterp q' ≤ zInterp q := by
  rcases eq_or_lt_of_le h1 with heq | hlt
  · have hb := zInterp_seg14 q' (le_trans h1 hqq) h2
    rw [← heq, zInterp_eq_seg13 (50000 : ℚ) (by norm_num) (by norm_num)]
    refine le_trans hb.2 ?_
    unfold lerp
    norm_num
  · rw [zInterp_eq_seg14 q hlt (le_trans hqq h2),
      zInterp_eq_seg14 q' (lt_of_lt_of_le hlt hqq) h2]
    exact lerp_anti 50000 100000 2.955 2.943 q q' (by norm_num) (by norm_num) hqq

/-- Monotonicity of `zInterp` within segment 15. -/
theorem zInterp_mseg15 (q q' : ℚ) (h1 : 100000 ≤ q) (hqq : q ≤ q')
    (h2 : q' ≤ 500000) : zInterp q' ≤ zInterp q := by
  rcases eq_or_lt_of_le h1 with heq | hlt
  · have hb := zInterp_seg15 q' (le_trans h1 hqq) h2
    rw [← heq, zInterp_eq_seg14 (100000 : ℚ) (by norm_num) (by norm_num)]
    refine le_trans hb.2 ?_
    unfold lerp
    norm_num
  · rw [zInterp_eq_seg15 q hlt (le_trans hqq h2),
      zInterp_eq_seg15 q' (lt_of_lt_of_le hlt hqq) h2]
    exact lerp_anti 100000 500000 2.943 2.931 q q' (by norm_num) (by norm_num) hqq

/-- Monotonicity of `zInterp` within segment 16. -/
theorem zInterp_mseg16 (q q' : ℚ) (h1 : 500000 ≤ q) (hqq : q ≤ q')
    (h2 : q' ≤ 1000000) : zInterp q' ≤ zInterp q := by
  rcases eq_or_lt_of_le h1 with heq | hlt
  · have hb := zInterp_seg16 q' (le_trans h1 hqq) h2
    rw [← heq, zInterp_eq_seg15 (500000 : ℚ) (by norm_num) (by norm_num)]
    refine le_trans hb.2 ?_
    unfold lerp
    norm_num
  · rw [zInterp_eq_seg16 q hlt (le_trans hqq h2),
      zInterp_eq_seg16 q' (lt_of_lt_of_le hlt hqq) h2]
    exact lerp_anti 500000 1000000 2.931 2.931 q q' (by norm_num) (by norm_num) hqq

/-- Tail bound from the last breakpoint segment. -/
theorem zInterp_tail16 (q : ℚ) (h1 : 500000 ≤ q) (h2 : q ≤ 1000000) :
    zInterp q ≤ 2.931 :=
  (zInterp_seg16 q h1 h2).2

/-- Tail bound: right of breakpoint 100000 the z-score is at most 2.943. -/
theorem zInterp_tail15 (q : ℚ) (h1 : 100000 ≤ q) (h2 : q ≤ 1000000) :
    zInterp q ≤ 2.943 := by
  rcases le_or_lt q 500000 with h | h
  · exact (zInterp_seg15 q h1 h).2
  · exact le_trans (zInterp_tail16 q (le_of_lt h) h2) (by norm_num)

/-- Tail bound: right of breakpoint 50000 the z-score is at most 2.955. -/
theorem zInterp_tail14 (q : ℚ) (h1 : 50000 ≤ q) (h2 : q ≤ 1000000) :
    zInterp q ≤ 2.955 := by
  rcases le_or_lt q 100000 with h | h
  · exact (zInterp_seg14 q h1 h).2
  · exact le_trans (zInterp_tail15 q (le_of_lt h) h2) (by norm_num)

/-- Tail bound: right of breakpoint 20000 the z-score is at most 2.972. -/
theorem zInterp_tail13 (q : ℚ) (h1 : 20000 ≤ q) (h2 : q ≤ 1000000) :
    zInterp q ≤ 2.972 := by
  rcases le_or_lt q 50000 with h | h
  · exact (zInterp_seg13 q h1 h).2
  · exact le_trans (zInterp_tail14 q (le_of_lt h) h2) (by norm_num)

/-- Tail bound: right of breakpoint 10000 the z-score is at most 2.987. -/
theorem zInterp_tail12 (q : ℚ) (h1 : 10000 ≤ q) (h2 : q ≤ 1000000) :
    zInterp q ≤ 2.987 := by
  rcases le_or_lt q 20000 with h | h
  · exact (zInterp_seg12 q h1 h).2
  · exact le_trans (zInterp_tail13 q (le_of_lt h) h2) (by norm_num)

/-- Tail bound: right of breakpoint 5000 the z-score is at most 3.007. -/
theorem zInterp_tail11 (q : ℚ) (h1 : 5000 ≤ q) (h2 : q ≤ 1000000) :
    zInterp q ≤ 3.007 := by
  rcases le_or_lt q 10000 with h | h
  · exact (zInterp_seg11 q h1 h).2
  · exact le_trans (zInterp_tail12 q (le_of_lt h) h2) (by norm_num)

/-- Tail bound: right of breakpoint 2000 the z-score is at most 3.035. -/
theorem zInterp_tail10 (q : ℚ) (h1 : 2000 ≤ q) (h2 : q ≤ 1000000) :
    zInterp q ≤ 3.035 := by
  rcases le_or_lt q 5000 with h | h
  · exact (zInterp_seg10 q h1 h).2
  · exact le_trans (zInterp_tail11 q (le_of_lt h) h2) (by norm_num)

/-- Tail bound: right of breakpoint 1000 the z-score is at most 3.063. -/
theorem zInterp_tail9 (q : ℚ) (h1 : 1000 ≤ q) (h2 : q ≤ 1000000) :
    zInterp q ≤ 3.063 := by
  rcases le_or_lt q 2000 with h | h
  · exact (zInterp_seg9 q h1 h).2
  · exact le_trans (zInterp_tail10 q (le_of_lt h) h2) (by norm_num)

/-- Tail bound: right of breakpoint 500 the z-score is at most 3.101. -/
theorem zInterp_tail8 (q : ℚ) (h1 : 500 ≤ q) (h2 : q ≤ 1000000) :
    zInterp q ≤ 3.101 := by
  rcases le_or_lt q 1000 with h | h
  · exact (zInterp_seg8 q h1 h).2
  · exact le_trans (zInterp_tail9 q (le_of_lt h) h2) (by norm_num)

/-- Tail bound: right of breakpoint 200 the z-score is at most 3.151. -/
theorem zInterp_tail7 (q : ℚ) (h1 : 200 ≤ q) (h2 : q ≤ 1000000) :
    zInterp q ≤ 3.151 := by
  rcases le_or_lt q 500 with h | h
  · exact (zInterp_seg7 q h1 h).2
  · exact le_trans (zInterp_tail8 q (le_of_lt h) h2) (by norm_num)

/-- Tail bound: right of breakpoint 100 the z-score is at most 3.201. -/
theorem zInterp_tail6 (q : ℚ) (h1 : 100 ≤ q) (h2 : q ≤ 1000000) :
    zInterp q ≤ 3.201 := by
  rcases le_or_lt q 200 with h | h
  · exact (zInterp_seg6 q h1 h).2
  · exact le_trans (zInterp_tail7 q (le_of_lt h) h2) (by norm_num)

/-- Tail bound: right of breakpoint 50 the z-score is at most 3.256. -/
theorem zInterp_tail5 (q : ℚ) (h1 : 50 ≤ q) (h2 : q ≤ 1000000) :
    zInterp q ≤ 3.256 := by
  rcases le_or_lt q 100 with h | h
  · exact (zInterp_seg5 q h1 h).2
  · exact le_trans (zInterp_tail6 q (le_of_lt h) h2) (by norm_num)

/-- Tail bound: right of breakpoint 30 the z-score is at most 3.302. -/
theorem zInterp_tail4 (q : ℚ) (h1 : 30 ≤ q) (h2 : q ≤ 1000000) :
    zInterp q ≤ 3.302 := by
  rcases le_or_lt q 50 with h | h
  · exact (zInterp_seg4 q h1 h).2
  · exact le_trans (zInterp_tail5 q (le_of_lt h) h2) (by norm_num)

/-- Tail bound: right of breakpoint 20 the z-score is at most 3.350. -/
theorem zInterp_tail3 (q : ℚ) (h1 : 20 ≤ q) (h2 : q ≤ 1000000) :
    zInterp q ≤ 3.350 := by
  rcases le_or_lt q 30 with h | h
  · exact (zInterp_seg3 q h1 h).2
  · exact le_trans (zInterp_tail4 q (le_of_lt h) h2) (by norm_num)

/-- Tail bound: right of breakpoint 10 the z-score is at most 3.404. -/
theorem zInterp_tail2 (q : ℚ) (h1 : 10 ≤ q) (h2 : q ≤ 1000000) :
    zInterp q ≤ 3.404 := by
  rcases le_or_lt q 20 with h | h
  · exact (zInterp_seg2 q h1 h).2
  · exact le_trans (zInterp_tail3 q (le_of_lt h) h2) (by norm_num)

/-- Tail bound: right of breakpoint 5 the z-score is at most 3.463. -/
theorem zInterp_tail1 (q : ℚ) (h1 : 5 ≤ q) (h2 : q ≤ 1000000) :
    zInterp q ≤ 3.463 := by
  rcases le_or_lt q 10 with h | h
  · exact (zInterp_seg1 q h1 h).2
  · exact le_trans (zInterp_tail2 q (le_of_lt h) h2) (by norm_num)

/-- Tail bound: right of breakpoint 1 the z-score is at most 3.536. -/
theorem zInterp_tail0 (q : ℚ) (h1 : 1 ≤ q) (h2 : q ≤ 1000000) :
    zInterp q ≤ 3.536 := by
  rcases le_or_lt q 5 with h | h
  · exact (zInterp_seg0 q h1 h).2
  · exact le_trans (zInterp_tail1 q (le_of_lt h) h2) (by norm_num)

/-- Low bound on the first segment. -/
theorem zInterp_low0 (q : ℚ) (h1 : 1 ≤ q) (h2 : q ≤ 5) :
    (3.463 : ℚ) ≤ zInterp q :=
  (zInterp_seg0 q h1 h2).1

/-- Low bound: left of breakpoint 10 the z-score is at least 3.404. -/
theorem zInterp_low1 (q : ℚ) (h1 : 1 ≤ q) (h2 : q ≤ 10) :
    (3.404 : ℚ) ≤ zInterp q := by
  rcases le_or_lt q 5 with h | h
  · exact le_trans (by norm_num) (zInterp_low0 q h1 h)
  · exact (zInterp_seg1 q (le_of_lt h) h2).1

/-- Low bound: left of breakpoint 20 the z-score is at least 3.350. -/
theorem zInterp_low2 (q : ℚ) (h1 : 1 ≤ q) (h2 : q ≤ 20) :
    (3.350 : ℚ) ≤ zInterp q := by
  rcases le_or_lt q 10 with h | h
  · exact le_trans (by norm_num) (zInterp_low1 q h1 h)
  · exact (zInterp_seg2 q (le_of_lt h) h2).1

/-- Low bound: left of breakpoint 30 the z-score is at least 3.302. -/
theorem zInterp_low3 (q : ℚ) (h1 : 1 ≤ q) (h2 : q ≤ 30) :
    (3.302 : ℚ) ≤ zInterp q := by
  rcases le_or_lt q 20 with h | h
  · exact le_trans (by norm_num) (zInterp_low2 q h1 h)
  · exact (zInterp_seg3 q (le_of_lt h) h2).1

/-- Low bound: left of breakpoint 50 the z-score is at least 3.256. -/
theorem zInterp_low4 (q : ℚ) (h1 : 1 ≤ q) (h2 : q ≤ 50) :
    (3.256 : ℚ) ≤ zInterp q := by
  rcases le_or_lt q 30 with h | h
  · exact le_trans (by norm_num) (zInterp_low3 q h1 h)
  · exact (zInterp_seg4 q (le_of_lt h) h2).1

/-- Low bound: left of breakpoint 100 the z-score is at least 3.201. -/
theorem zInterp_low5 (q : ℚ) (h1 : 1 ≤ q) (h2 : q ≤ 100) :
    (3.201 : ℚ) ≤ zInterp q := by
  rcases le_or_lt q 50 with h | h
  · exact le_trans (by norm_num) (zInterp_low4 q h1 h)
  · exact (zInterp_seg5 q (le_of_lt h) h2).1

/-- Low bound: left of breakpoint 200 the z-score is at least 3.151. -/
theorem zInterp_low6 (q : ℚ) (h1 : 1 ≤ q) (h2 : q ≤ 200) :
    (3.151 : ℚ) ≤ zInterp q := by
  rcases le_or_lt q 100 with h | h
  · exact le_trans (by norm_num) (zInterp_low5 q h1 h)
  · exact (zInterp_seg6 q (le_of_lt h) h2).1

/-- Low bound: left of breakpoint 500 the z-score is at least 3.101. -/
theorem zInterp_low7 (q : ℚ) (h1 : 1 ≤ q) (h2 : q ≤ 500) :
    (3.101 : ℚ) ≤ zInterp q := by
  rcases le_or_lt q 200 with h | h
  · exact le_trans (by norm_num) (zInterp_low6 q h1 h)
  · exact (zInterp_seg7 q (le_of_lt h) h2).1

/-- Low bound: left of breakpoint 1000 the z-score is at least 3.063. -/
theorem zInterp_low8 (q : ℚ) (h1 : 1 ≤ q) (h2 : q ≤ 1000) :
    (3.063 : ℚ) ≤ zInterp q := by
  rcases le_or_lt q 500 with h | h
  · exact le_trans (by norm_num) (zInterp_low7 q h1 h)
  · exact (zInterp_seg8 q (le_of_lt h) h2).1

/-- Low bound: left of breakpoint 2000 the z-score is at least 3.035. -/
theorem zInterp_low9 (q : ℚ) (h1 : 1 ≤ q) (h2 : q ≤ 2000) :
    (3.035 : ℚ) ≤ zInterp q := by
  rcases le_or_lt q 1000 with h | h
  · exact le_trans (by norm_num) (zInterp_low8 q h1 h)
  · exact (zInterp_seg9 q (le_of_lt h) h2).1

/-- Low bound: left of breakpoint 5000 the z-score is at least 3.007. -/
theorem zInterp_low10 (q : ℚ) (h1 : 1 ≤ q) (h2 : q ≤ 5000) :
    (3.007 : ℚ) ≤ zInterp q := by
  rcases le_or_lt q 2000 with h | h
  · exact le_trans (by norm_num) (zInterp_low9 q h1 h)
  · exact (zInterp_seg10 q (le_of_lt h) h2).1

/-- Low bound: left of breakpoint 10000 the z-score is at least 2.987. -/
theorem zInterp_low11 (q : ℚ) (h1 : 1 ≤ q) (h2 : q ≤ 10000) :
    (2.987 : ℚ) ≤ zInterp q := by
  rcases le_or_lt q 5000 with h | h
  · exact le_trans (by norm_num) (zInterp_low10 q h1 h)
  · exact (zInterp_seg11 q (le_of_lt h) h2).1

/-- Low bound: left of breakpoint 20000 the z-score is at least 2.972. -/
theorem zInterp_low12 (q : ℚ) (h1 : 1 ≤ q) (h2 : q ≤ 20000) :
    (2.972 : ℚ) ≤ zInterp q := by
  rcases le_or_lt q 10000 with h | h
  · exact le_trans (by norm_num) (zInterp_low11 q h1 h)
  · exact (zInterp_seg12 q (le_of_lt h) h2).1

/-- Low bound: left of breakpoint 50000 the z-score is at least 2.955. -/
theorem zInterp_low13 (q : ℚ) (h1 : 1 ≤ q) (h2 : q ≤ 50000) :
    (2.955 : ℚ) ≤ zInterp q := by
  rcases le_or_lt q 20000 with h | h
  · exact le_trans (by norm_num) (zInterp_low12 q h1 h)
  · exact (zInterp_seg13 q (le_of_lt h) h2).1

/-- Low bound: left of breakpoint 100000 the z-score is at least 2.943. -/
theorem zInterp_low14 (q : ℚ) (h1 : 1 ≤ q) (h2 : q ≤ 100000) :
    (2.943 : ℚ) ≤ zInterp q := by
  rcases le_or_lt q 50000 with h | h
  · exact le_trans (by norm_num) (zInterp_low13 q h1 h)
  · exact (zInterp_seg14 q (le_of_lt h) h2).1

/-- Low bound: left of breakpoint 500000 the z-score is at least 2.931. -/
theorem zInterp_low15 (q : ℚ) (h1 : 1 ≤ q) (h2 : q ≤ 500000) :
    (2.931 : ℚ) ≤ zInterp q := by
  rcases le_or_lt q 100000 with h | h
  · exact le_trans (by norm_num) (zInterp_low14 q h1 h)
  · exact (zInterp_seg15 q (le_of_lt h) h2).1

/-- Low bound: left of breakpoint 1000000 the z-score is at least 2.931. -/
theorem zInterp_low16 (q : ℚ) (h1 : 1 ≤ q) (h2 : q ≤ 1000000) :
    (2.931 : ℚ) ≤ zInterp q := by
  rcases le_or_lt q 500000 with h | h
  · exact le_trans (by norm_num) (zInterp_low15 q h1 h)
  · exact (zInterp_seg16 q (le_of_lt h) h2).1

/-- `zInterp` is non-increasing on the clamp interval `[1, 10⁶]`. -/
theorem zInterp_anti (q q' : ℚ) (h1 : 1 ≤ q) (hqq : q ≤ q')
    (h2 : q' ≤ 1000000) : zInterp q' ≤ zInterp q := by
  rcases le_or_lt q 5 with hqk | hq
  · rcases le_or_lt q' 5 with hq1k | hq1
    · exact zInterp_mseg0 q q' h1 hqq hq1k
    · exact le_trans (zInterp_tail1 q' (le_of_lt hq1) h2)
        (zInterp_seg0 q h1 hqk).1
  rcases le_or_lt q 10 with hqk | hq
  · rcases le_or_lt q' 10 with hq1k | hq1
    · exact zInterp_mseg1 q q' (le_of_lt hq) hqq hq1k
    · exact le_trans (zInterp_tail2 q' (le_of_lt hq1) h2)
        (zInterp_seg1 q (le_of_lt hq) hqk).1
  rcases le_or_lt q 20 with hqk | hq
  · rcases le_or_lt q' 20 with hq1k | hq1
    · exact zInterp_mseg2 q q' (le_of_lt hq) hqq hq1k
    · exact le_trans (zInterp_tail3 q' (le_of_lt hq1) h2)
        (zInterp_seg2 q (le_of_lt hq) hqk).1
  rcases le_or_lt q 30 with hqk | hq
  · rcases le_or_lt q' 30 with hq1k | hq1
    · exact zInterp_mseg3 q q' (le_of_lt hq) hqq hq1k
    · exact le_trans (zInterp_tail4 q' (le_of_lt hq1) h2)
        (zInterp_seg3 q (le_of_lt hq) hqk).1
  rcases le_or_lt q 50 with hqk | hq
  · rcases le_or_lt q' 50 with hq1k | hq1
    · exact zInterp_mseg4 q q' (le_of_lt hq) hqq hq1k
    · exact le_trans (zInterp_tail5 q' (le_of_lt hq1) h2)
        (zInterp_seg4 q (le_of_lt hq) hqk).1
  rcases le_or_lt q 100 with hqk | hq
  · rcases le_or_lt q' 100 with hq1k | hq1
    · exact zInterp_mseg5 q q' (le_of_lt hq) hqq hq1k
    · exact le_trans (zInterp_tail6 q' (le_of_lt hq1) h2)
        (zInterp_seg5 q (le_of_lt hq) hqk).1
  rcases le_or_lt q 200 with hqk | hq
  · rcases le_or_lt q' 200 with hq1k | hq1
    · exact zInterp_mseg6 q q' (le_of_lt hq) hqq hq1k
    · exact le_trans (zInterp_tail7 q' (le_of_lt hq1) h2)
        (zInterp_seg6 q (le_of_lt hq) hqk).1
  rcases le_or_lt q 500 with hqk | hq
  · rcases le_or_lt q' 500 with hq1k | hq1
    · exact zInterp_mseg7 q q' (le_of_lt hq) hqq hq1k
    · exact le_trans (zInterp_tail8 q' (le_of_lt hq1) h2)
        (zInterp_seg7 q (le_of_lt hq) hqk).1
  rcases le_or_lt q 1000 with hqk | hq
  · rcases le_or_lt q' 1000 with hq1k | hq1
    · exact zInterp_mseg8 q q' (le_of_lt hq) hqq hq1k
    · exact le_trans (zInterp_tail9 q' (le_of_lt hq1) h2)
        (zInterp_seg8 q (le_of_lt hq) hqk).1
  rcases le_or_lt q 2000 with hqk | hq
  · rcases le_or_lt q' 2000 with hq1k | hq1
    · exact zInterp_mseg9 q q' (le_of_lt hq) hqq hq1k
    · exact le_trans (zInterp_tail10 q' (le_of_lt hq1) h2)
        (zInterp_seg9 q (le_of_lt hq) hqk).1
  rcases le_or_lt q 5000 with hqk | hq
  · rcases le_or_lt q' 5000 with hq1k | hq1
    · exact zInterp_mseg10 q q' (le_of_lt hq) hqq hq1k
    · exact le_trans (zInterp_tail11 q' (le_of_lt hq1) h2)
        (zInterp_seg10 q (le_of_lt hq) hqk).1
  rcases le_or_lt q 10000 with hqk | hq
  · rcases le_or_lt q' 10000 with hq1k | hq1
    · exact zInterp_mseg11 q q' (le_of_lt hq) hqq hq1k
    · exact le_trans (zInterp_tail12 q' (le_of_lt hq1) h2)
        (zInterp_seg11 q (le_of_lt hq) hqk).1
  rcases le_or_lt q 20000 with hqk | hq
  · rcases le_or_lt q' 20000 with hq1k | hq1
    · exact zInterp_mseg12 q q' (le_of_lt hq) hqq hq1k
    · exact le_trans (zInterp_tail13 q' (le_of_lt hq1) h2)
        (zInterp_seg12 q (le_of_lt hq) hqk).1
  rcases le_or_lt q 50000 with hqk | hq
  · rcases le_or_lt q' 50000 with hq1k | hq1
    · exact zInterp_mseg13 q q' (le_of_lt hq) hqq hq1k
    · exact le_trans (zInterp_tail14 q' (le_of_lt hq1) h2)
        (zInterp_seg13 q (le_of_lt hq) hqk).1
  rcases le_or_lt q 100000 with hqk | hq
  · rcases le_or_lt q' 100000 with hq1k | hq1
    · exact zInterp_mseg14 q q' (le_of_lt hq) hqq hq1k
    · exact le_trans (zInterp_tail15 q' (le_of_lt hq1) h2)
        (zInterp_seg14 q (le_of_lt hq) hqk).1
  rcases le_or_lt q 500000 with hqk | hq
  · rcases le_or_lt q' 500000 with hq1k | hq1
    · exact zInterp_mseg15 q q' (le_of_lt hq) hqq hq1k
    · exact le_trans (zInterp_tail16 q' (le_of_lt hq1) h2)
        (zInterp_seg15 q (le_of_lt hq) hqk).1
  exact zInterp_mseg16 q q' (le_of_lt hq) hqq h2

end Unnamed0

/-- `getDynamicZScore` is non-increasing in the sample size: the
interpolated z-score falls along the breakpoints, and for small samples
the logarithmic smoothing factor (which lies in `[1, 1.05]`) also
falls. -/
theorem getDynamicZScore_anti (n1 n2 : ℕ) (h : n1 ≤ n2) :
    Unnamed0.getDynamicZScore n2 ≤ Unnamed0.getDynamicZScore n1 := by
  simp only [Unnamed0.getDynamicZScore]
  set c1 : ℚ := max 1 (min (n1 : ℚ) 1000000) with hc1def
  set c2 : ℚ := max 1 (min (n2 : ℚ) 1000000) with hc2def
  have hc12 : c1 ≤ c2 :=
    max_le_max (le_refl (1 : ℚ))
      (min_le_min (by exact_mod_cast h) (le_refl _))
  have h1c : (1 : ℚ) ≤ c1 := le_max_left _ _
  have h1c2 : (1 : ℚ) ≤ c2 := le_max_left _ _
  have h2c : c2 ≤ 1000000 := max_le (by norm_num) (min_le_right _ _)
  have h2c1 : c1 ≤ 1000000 := le_trans hc12 h2c
  have hanti : Unnamed0.zInterp c2 ≤ Unnamed0.zInterp c1 :=
    Unnamed0.zInterp_anti c1 c2 h1c hc12 h2c
  have hlow1 : (2.931 : ℚ) ≤ Unnamed0.zInterp c1 :=
    Unnamed0.zInterp_low16 c1 h1c h2c1
  have hlow2 : (2.931 : ℚ) ≤ Unnamed0.zInterp c2 :=
    Unnamed0.zInterp_low16 c2 h1c2 h2c
  have hlog101 : (0 : ℝ) < Real.log 101 := Real.log_pos (by norm_num)
  have hcastanti : ((Unnamed0.zInterp c2 : ℚ) : ℝ)
      ≤ ((Unnamed0.zInterp c1 : ℚ) : ℝ) := by exact_mod_cast hanti
  have hpos1 : (0 : ℝ) ≤ ((Unnamed0.zInterp c1 : ℚ) : ℝ) := by
    have h0 : (0 : ℚ) ≤ Unnamed0.zInterp c1 := by linarith
    exact_mod_cast h0
  have hpos2 : (0 : ℝ) ≤ ((Unnamed0.zInterp c2 : ℚ) : ℝ) := by
    have h0 : (0 : ℚ) ≤ Unnamed0.zInterp c2 := by linarith
    exact_mod_cast h0
  have h1cR : (1 : ℝ) ≤ ((c1 : ℚ) : ℝ) := by exact_mod_cast h1c
  have h1c2R : (1 : ℝ) ≤ ((c2 : ℚ) : ℝ) := by exact_mod_cast h1c2
  have hc12R : ((c1 : ℚ) : ℝ) ≤ ((c2 : ℚ) : ℝ) := by exact_mod_cast hc12
  by_cases hA : c1 < 100 <;> by_cases hB : c2 < 100
  · rw [if_pos hA, if_pos hB]
    have hs1 : Real.log (((c1 : ℚ) : ℝ) + 1) ≤ Real.log (((c2 : ℚ) : ℝ) + 1) :=
      Real.log_le_log (by linarith) (by linarith)
    have hub2 : Real.log (((c2 : ℚ) : ℝ) + 1) ≤ Real.log 101 := by
      apply Real.log_le_log (by linarith)
      have hBR : ((c2 : ℚ) : ℝ) < 100 := by exact_mod_cast hB
      linarith
    have hratio : Real.log (((c1 : ℚ) : ℝ) + 1) / Real.log 101
        ≤ Real.log (((c2 : ℚ) : ℝ) + 1) / Real.log 101 :=
      div_le_div_of_nonneg_right hs1 hlog101.le
    have hr2 : Real.log (((c2 : ℚ) : ℝ) + 1) / Real.log 101 ≤ 1 :=
      (div_le_one hlog101).mpr hub2
    have hsf2nn : (0 : ℝ)
        ≤ 1 + 0.05 * (1 - Real.log (((c2 : ℚ) : ℝ) + 1) / Real.log 101) := by
      nlinarith
    have hsfanti : 1 + 0.05 * (1 - Real.log (((c2 : ℚ) : ℝ) + 1) / Real.log 101)
        ≤ 1 + 0.05 * (1 - Real.log (((c1 : ℚ) : ℝ) + 1) / Real.log 101) := by
      linarith
    exact mul_le_mul hcastanti hsfanti hsf2nn hpos1
  · rw [if_pos hA, if_neg hB]
    have hub1 : Real.log (((c1 : ℚ) : ℝ) + 1) ≤ Real.log 101 := by
      apply Real.log_le_log (by linarith)
      have hAR : ((c1 : ℚ) : ℝ) < 100 := by exact_mod_cast hA
      linarith
    have hr1 : Real.log (((c1 : ℚ) : ℝ) + 1) / Real.log 101 ≤ 1 :=
      (div_le_one hlog101).mpr hub1
    nlinarith
  · exfalso
    have h100 : (100 : ℚ) ≤ c1 := not_lt.mp hA
    exact absurd (lt_of_le_of_lt (le_trans h100 hc12) hB) (by norm_num)
  · rw [if_neg hA, if_neg hB]
    exact hcastanti

/-- The per-deck z-score of the `conditions.js` engine is likewise
non-increasing in the sample size (for a nonnegative base z-score). -/
theorem deckZ_anti (baseZ : ℝ) (hbz : 0 ≤ baseZ) (n1 n2 : ℕ) (h : n1 ≤ n2) :
    ConditionsJs.deckZ baseZ n2 ≤ ConditionsJs.deckZ baseZ n1 := by
  unfold ConditionsJs.deckZ
  apply mul_le_mul_of_nonneg_left _ hbz
  have hssf : ConditionsJs.sampleSizeFactor n1 ≤ ConditionsJs.sampleSizeFactor n2 := by
    unfold ConditionsJs.sampleSizeFactor
    apply min_le_min (le_refl 1)
    have hlogb : Real.logb 10 ((n1 : ℝ) + 1) ≤ Real.logb 10 ((n2 : ℝ) + 1) := by
      apply Real.logb_le_logb_of_le (b := 10) (by norm_num)
      · positivity
      · have hc : (n1 : ℝ) ≤ (n2 : ℝ) := by exact_mod_cast h
        linarith
    exact div_le_div_of_nonneg_right hlogb
      (Real.logb_pos (by norm_num) (by norm_num)).le
  linarith

/-- C9: the per-entity z-score used for the lower confidence bound is
non-increasing in the entity's own sample size, in both engines:
`getDynamicZScore` (the `part_000` engine) and `deckZ = baseZ * (2 -
sampleSizeFactor)` (the `conditions.js` engine, whose `baseZ` ladder is
nonnegative). -/
theorem zscore_nonincreasing (n1 n2 : ℕ) (h : n1 ≤ n2) :
    Unnamed0.getDynamicZScore n2 ≤ Unnamed0.getDynamicZScore n1 ∧
    ∀ baseZ : ℝ, 0 ≤ baseZ →
      ConditionsJs.deckZ baseZ n2 ≤ ConditionsJs.deckZ baseZ n1 :=
  ⟨getDynamicZScore_anti n1 n2 h, fun baseZ hbz => deckZ_anti baseZ hbz n1 n2 h⟩

/-- C9 witness: sample sizes 3 and 7, base z-score 1.96. -/
theorem zscore_nonincreasing_witness :
    Unnamed0.getDynamicZScore 7 ≤ Unnamed0.getDynamicZScore 3 ∧
    ConditionsJs.deckZ 1.96 7 ≤ ConditionsJs.deckZ 1.96 3 :=
  ⟨(zscore_nonincreasing 3 7 (by norm_num)).1,
    (zscore_nonincreasing 3 7 (by norm_num)).2 1.96 (by norm_num)⟩

/-! ### C1 and C2: shrinkage and win-monotonicity of the rating

The central analytic fact: the clamped lower confidence bound
`max 0 (m - z*sqrt(m*(1-m)/T))` is monotone when the posterior mean
rises, the posterior mass `T` rises, and the z-score falls.  Whenever
the unclamped bound of the smaller configuration is positive, its mean
is far enough above 0 that the variance term cannot offset the mean
gain (the same algebra as Wilson-type bounds). -/

set_option maxHeartbeats 1000000 in
/-- Monotonicity of the clamped lower confidence bound. -/
theorem bound_mono_core (m1 m2 T1 T2 z1 z2 : ℝ)
    (hm10 : 0 ≤ m1) (hm12 : m1 ≤ m2) (hm21 : m2 ≤ 1)
    (hT1 : 0 < T1) (hT12 : T1 ≤ T2)
    (hz2 : 0 ≤ z2) (hz12 : z2 ≤ z1) :
    max 0 (m1 - z1 * Real.sqrt (m1 * (1 - m1) / T1))
      ≤ max 0 (m2 - z2 * Real.sqrt (m2 * (1 - m2) / T2)) := by
  set s1 := Real.sqrt (m1 * (1 - m1) / T1) with hs1def
  set s2 := Real.sqrt (m2 * (1 - m2) / T2) with hs2def
  have hT2 : 0 < T2 := lt_of_lt_of_le hT1 hT12
  have hv1 : 0 ≤ m1 * (1 - m1) / T1 :=
    div_nonneg (mul_nonneg hm10 (by linarith)) hT1.le
  have hv2 : 0 ≤ m2 * (1 - m2) / T2 :=
    div_nonneg (mul_nonneg (by linarith) (by linarith)) hT2.le
  have hs1sq : s1 ^ 2 = m1 * (1 - m1) / T1 := Real.sq_sqrt hv1
  have hs2sq : s2 ^ 2 = m2 * (1 - m2) / T2 := Real.sq_sqrt hv2
  have hs1nn : 0 ≤ s1 := Real.sqrt_nonneg _
  have hs2nn : 0 ≤ s2 := Real.sqrt_nonneg _
  have hz1 : 0 ≤ z1 := le_trans hz2 hz12
  have hs1T : s1 ^ 2 * T1 = m1 * (1 - m1) := by
    rw [hs1sq]; field_simp
  have hs2T : s2 ^ 2 * T2 = m2 * (1 - m2) := by
    rw [hs2sq]; field_simp
  rcases le_or_lt (m1 - z1 * s1) 0 with hneg | hpos
  · calc max 0 (m1 - z1 * s1) = 0 := max_eq_left hneg
      _ ≤ max 0 (m2 - z2 * s2) := le_max_left _ _
  · have hmain : m1 - z1 * s1 ≤ m2 - z2 * s2 := by
      rcases le_or_lt s2 s1 with hss | hss
      · have hzz : z2 * s2 ≤ z1 * s1 := mul_le_mul hz12 hss hs2nn hz1
        linarith
      · have hsq12 : s1 ^ 2 < s2 ^ 2 := by nlinarith [hss, hs1nn, hs2nn]
        have hs1T2 : s1 ^ 2 * T1 ≤ s1 ^ 2 * T2 :=
          mul_le_mul_of_nonneg_left hT12 (sq_nonneg s1)
        have hzs : z1 * s1 < m1 := by linarith
        have hm1pos : 0 < m1 := lt_of_le_of_lt (mul_nonneg hz1 hs1nn) hzs
        have hm12' : m1 < m2 := by
          by_contra hcon
          push_neg at hcon
          have hm2e : m2 = m1 := le_antisymm hcon hm12
          rw [hm2e] at hs2T
          nlinarith [hs1T, hs2T, hs1T2, hT2]
        have hsum : m1 + m2 < 1 := by
          by_contra hcon
          push_neg at hcon
          have hprod : 0 ≤ (m2 - m1) * (m1 + m2 - 1) :=
            mul_nonneg (by linarith) (by linarith)
          nlinarith [hs1T, hs2T, hs1T2, hT2]
        have hsq' : (z1 * s1) ^ 2 ≤ m1 ^ 2 := by
          nlinarith [hzs, mul_nonneg hz1 hs1nn]
        have hb : z1 ^ 2 * (m1 * (1 - m1)) ≤ m1 ^ 2 * T1 := by
          have hmt := mul_le_mul_of_nonneg_right hsq' hT1.le
          calc z1 ^ 2 * (m1 * (1 - m1)) = z1 ^ 2 * (s1 ^ 2 * T1) := by rw [hs1T]
            _ = (z1 * s1) ^ 2 * T1 := by ring
            _ ≤ m1 ^ 2 * T1 := hmt
        have h1 : z1 ^ 2 * (1 - m1) ≤ m1 * T1 := by
          rw [← mul_le_mul_left hm1pos]
          nlinarith [hb]
        have h1m : (0 : ℝ) ≤ 1 - m1 := by linarith
        have h2 : (z1 * (1 - m1)) ^ 2 ≤ (s1 * T1) ^ 2 := by
          have hmt := mul_le_mul_of_nonneg_right h1 h1m
          calc (z1 * (1 - m1)) ^ 2 = z1 ^ 2 * (1 - m1) * (1 - m1) := by ring
            _ ≤ m1 * T1 * (1 - m1) := hmt
            _ = s1 ^ 2 * T1 * T1 := by rw [hs1T]; ring
            _ = (s1 * T1) ^ 2 := by ring
        have hln : 0 ≤ z1 * (1 - m1) := mul_nonneg hz1 (by linarith)
        have hrn : 0 ≤ s1 * T1 := mul_nonneg hs1nn hT1.le
        have hkey1 : z1 * (1 - m1) ≤ s1 * T1 := by
          have hs := Real.sqrt_le_sqrt h2
          rwa [Real.sqrt_sq hln, Real.sqrt_sq hrn] at hs
        have hvdiff : (s2 ^ 2 - s1 ^ 2) * T2 ≤ (m2 - m1) * (1 - m1 - m2) := by
          nlinarith [hs1T, hs2T, hs1T2]
        have hspos : 0 < s1 + s2 := by linarith
        have hstep : z1 * (1 - m1 - m2) ≤ (s1 + s2) * T2 := by
          have e1 : z1 * (1 - m1 - m2) ≤ z1 * (1 - m1) := by
            nlinarith [mul_nonneg hz1 (le_trans hm10 hm12)]
          have e2 : s1 * T1 ≤ (s1 + s2) * T2 := by
            nlinarith [hs1nn, hs2nn, hT1, hT12, hT2]
          linarith [hkey1]
        have p1 : z1 * ((s2 ^ 2 - s1 ^ 2) * T2)
            ≤ z1 * ((m2 - m1) * (1 - m1 - m2)) :=
          mul_le_mul_of_nonneg_left hvdiff hz1
        have p2 : (m2 - m1) * (z1 * (1 - m1 - m2))
            ≤ (m2 - m1) * ((s1 + s2) * T2) :=
          mul_le_mul_of_nonneg_left hstep (by linarith)
        have p3 : z1 * (s2 - s1) * ((s1 + s2) * T2)
            ≤ (m2 - m1) * ((s1 + s2) * T2) := by
          calc z1 * (s2 - s1) * ((s1 + s2) * T2)
              = z1 * ((s2 ^ 2 - s1 ^ 2) * T2) := by ring
            _ ≤ z1 * ((m2 - m1) * (1 - m1 - m2)) := p1
            _ = (m2 - m1) * (z1 * (1 - m1 - m2)) := by ring
            _ ≤ (m2 - m1) * ((s1 + s2) * T2) := p2
        have hfin : z1 * (s2 - s1) ≤ m2 - m1 :=
          le_of_mul_le_mul_right p3 (mul_pos hspos hT2)
        have hz2s : z2 * s2 ≤ z1 * s2 := mul_le_mul_of_nonneg_right hz12 hs2nn
        nlinarith [hfin, hz2s]
    calc max 0 (m1 - z1 * s1) = m1 - z1 * s1 := max_eq_right hpos.le
      _ ≤ m2 - z2 * s2 := hmain
      _ ≤ max 0 (m2 - z2 * s2) := le_max_right _ _

/-- The dynamic z-score is nonnegative. -/
theorem getDynamicZScore_nonneg (n : ℕ) : 0 ≤ Unnamed0.getDynamicZScore n := by
  simp only [Unnamed0.getDynamicZScore]
  set c : ℚ := max 1 (min (n : ℚ) 1000000) with hcdef
  have h1c : (1 : ℚ) ≤ c := le_max_left _ _
  have h2c : c ≤ 1000000 := max_le (by norm_num) (min_le_right _ _)
  have hlow : (2.931 : ℚ) ≤ Unnamed0.zInterp c := Unnamed0.zInterp_low16 c h1c h2c
  have hzc : (0 : ℝ) ≤ ((Unnamed0.zInterp c : ℚ) : ℝ) := by
    have h0 : (0 : ℚ) ≤ Unnamed0.zInterp c := by linarith
    exact_mod_cast h0
  by_cases hA : c < 100
  · rw [if_pos hA]
    have hlog101 : (0 : ℝ) < Real.log 101 := Real.log_pos (by norm_num)
    have h1cR : (1 : ℝ) ≤ ((c : ℚ) : ℝ) := by exact_mod_cast h1c
    have hub : Real.log (((c : ℚ) : ℝ) + 1) ≤ Real.log 101 := by
      apply Real.log_le_log (by linarith)
      have hAR : ((c : ℚ) : ℝ) < 100 := by exact_mod_cast hA
      linarith
    have hr : Real.log (((c : ℚ) : ℝ) + 1) / Real.log 101 ≤ 1 :=
      (div_le_one hlog101).mpr hub
    have hsf : (0 : ℝ)
        ≤ 1 + 0.05 * (1 - Real.log (((c : ℚ) : ℝ) + 1) / Real.log 101) := by
      nlinarith
    exact mul_nonneg hzc hsf
  · rw [if_neg hA]
    exact hzc

/-- Monotonicity of the clamped lower bound of `deckResult` under a
fixed prior: with a nondecreasing posterior mean and a nondecreasing
sample size, the bound does not fall. -/
theorem deckResult_lowerBound_mono
    (pA pB adj : ℚ) (w1 l1 t1 w2 l2 t2 : ℕ)
    (hpA : 0 < pA) (hpB : 0 < pB) (hadj : 0 ≤ adj)
    (hn : w1 + l1 + t1 ≤ w2 + l2 + t2)
    (hm : (pA + (w1 : ℚ) + 0.5 * (t1 : ℚ))
        / (pA + (w1 : ℚ) + 0.5 * (t1 : ℚ) + (pB + (l1 : ℚ) + 0.5 * (t1 : ℚ)))
        ≤ (pA + (w2 : ℚ) + 0.5 * (t2 : ℚ))
        / (pA + (w2 : ℚ) + 0.5 * (t2 : ℚ) + (pB + (l2 : ℚ) + 0.5 * (t2 : ℚ)))) :
    (Unnamed0.deckResult pA pB adj w1 l1 t1).lowerBound
      ≤ (Unnamed0.deckResult pA pB adj w2 l2 t2).lowerBound := by
  simp only [Unnamed0.deckResult]
  apply min_le_min (le_refl _)
  set a1 : ℚ := pA + (w1 : ℚ) + 0.5 * (t1 : ℚ) with ha1def
  set b1 : ℚ := pB + (l1 : ℚ) + 0.5 * (t1 : ℚ) with hb1def
  set a2 : ℚ := pA + (w2 : ℚ) + 0.5 * (t2 : ℚ) with ha2def
  set b2 : ℚ := pB + (l2 : ℚ) + 0.5 * (t2 : ℚ) with hb2def
  have hw1 : (0 : ℚ) ≤ (w1 : ℚ) := Nat.cast_nonneg w1
  have hl1 : (0 : ℚ) ≤ (l1 : ℚ) := Nat.cast_nonneg l1
  have ht1 : (0 : ℚ) ≤ (t1 : ℚ) := Nat.cast_nonneg t1
  have hw2 : (0 : ℚ) ≤ (w2 : ℚ) := Nat.cast_nonneg w2
  have hl2 : (0 : ℚ) ≤ (l2 : ℚ) := Nat.cast_nonneg l2
  have ht2 : (0 : ℚ) ≤ (t2 : ℚ) := Nat.cast_nonneg t2
  have ha1p : 0 < a1 := by rw [ha1def]; linarith
  have hb1p : 0 < b1 := by rw [hb1def]; linarith
  have ha2p : 0 < a2 := by rw [ha2def]; linarith
  have hb2p : 0 < b2 := by rw [hb2def]; linarith
  have hS12 : a1 + b1 ≤ a2 + b2 := by
    rw [ha1def, hb1def, ha2def, hb2def]
    have hnq : ((w1 + l1 + t1 : ℕ) : ℚ) ≤ ((w2 + l2 + t2 : ℕ) : ℚ) := by
      exact_mod_cast hn
    push_cast at hnq
    linarith
  have hvar : ∀ a b : ℚ, 0 < a → 0 < b →
      (a * b / ((a + b) ^ 2 * (a + b + 1)) : ℚ)
        = a / (a + b) * (1 - a / (a + b)) / (a + b + 1) := by
    intro a b hap hbp
    have hS : a + b ≠ 0 := by linarith
    have hS1 : a + b + 1 ≠ 0 := by linarith
    have hb' : (1 : ℚ) - a / (a + b) = b / (a + b) := by
      field_simp
    rw [hb', div_mul_div_comm, div_div, ← pow_two]
  have hv1 : ((a1 * b1 / ((a1 + b1) ^ 2 * (a1 + b1 + 1)) : ℚ) : ℝ)
      = ((a1 / (a1 + b1) : ℚ) : ℝ) * (1 - ((a1 / (a1 + b1) : ℚ) : ℝ))
        / ((a1 + b1 + 1 : ℚ) : ℝ) := by
    rw [hvar a1 b1 ha1p hb1p]
    push_cast
    ring
  have hv2 : ((a2 * b2 / ((a2 + b2) ^ 2 * (a2 + b2 + 1)) : ℚ) : ℝ)
      = ((a2 / (a2 + b2) : ℚ) : ℝ) * (1 - ((a2 / (a2 + b2) : ℚ) : ℝ))
        / ((a2 + b2 + 1 : ℚ) : ℝ) := by
    rw [hvar a2 b2 ha2p hb2p]
    push_cast
    ring
  rw [hv1, hv2]
  apply bound_mono_core
  · have h0 : (0 : ℚ) ≤ a1 / (a1 + b1) := by positivity
    exact_mod_cast h0
  · exact_mod_cast hm
  · have h1 : (a2 / (a2 + b2) : ℚ) ≤ 1 := by
      rw [div_le_one (by linarith)]
      linarith
    exact_mod_cast h1
  · have h0 : (0 : ℚ) < a1 + b1 + 1 := by linarith
    exact_mod_cast h0
  · have h12 : (a1 + b1 + 1 : ℚ) ≤ a2 + b2 + 1 := by linarith
    exact_mod_cast h12
  · exact mul_nonneg (getDynamicZScore_nonneg _) (by exact_mod_cast hadj)
  · exact mul_le_mul_of_nonneg_right (getDynamicZScore_anti _ _ hn)
      (by exact_mod_cast hadj)

/-- C2 (amended): holding the prior (priorAlpha, priorBeta) and the meta
adjustment factor fixed — i.e. holding the rest of the population fixed in
its role as input to the empirical prior — and holding the sample size
n = wins + losses + ties fixed, converting k losses into k wins never
decreases the entity's rating (strength = lowerBound * 180). The original
claim fails because the prior itself depends on the entity's own record
(see the counterexample), but it holds whenever the prior is held fixed. -/
theorem rating_monotone_in_wins_fixed_prior
    (pA pB adj : ℚ) (w l t k : ℕ)
    (hpA : 0 < pA) (hpB : 0 < pB) (hadj : 0 ≤ adj) (hk : k ≤ l) :
    Unnamed0.calculateStrength (Unnamed0.deckResult pA pB adj w l t).lowerBound
      ≤ Unnamed0.calculateStrength
          (Unnamed0.deckResult pA pB adj (w + k) (l - k) t).lowerBound := by
  simp only [Unnamed0.calculateStrength]
  apply mul_le_mul_of_nonneg_right _ (by norm_num)
  apply deckResult_lowerBound_mono pA pB adj w l t (w + k) (l - k) t hpA hpB hadj
    (by omega)
  have hlk : ((l - k : ℕ) : ℚ) = (l : ℚ) - (k : ℚ) := by
    push_cast [hk]
    ring
  have hden : pA + ((w + k : ℕ) : ℚ) + 0.5 * (t : ℚ)
        + (pB + ((l - k : ℕ) : ℚ) + 0.5 * (t : ℚ))
      = pA + (w : ℚ) + 0.5 * (t : ℚ) + (pB + (l : ℚ) + 0.5 * (t : ℚ)) := by
    rw [hlk]
    push_cast
    ring
  rw [hden]
  have hpos : (0 : ℚ) < pA + (w : ℚ) + 0.5 * (t : ℚ)
      + (pB + (l : ℚ) + 0.5 * (t : ℚ)) := by
    have hw : (0 : ℚ) ≤ (w : ℚ) := Nat.cast_nonneg w
    have hl : (0 : ℚ) ≤ (l : ℚ) := Nat.cast_nonneg l
    have ht : (0 : ℚ) ≤ (t : ℚ) := Nat.cast_nonneg t
    linarith
  apply div_le_div_of_nonneg_right _ hpos.le
  have hkq : (0 : ℚ) ≤ (k : ℚ) := Nat.cast_nonneg k
  push_cast
  linarith

/-- Witness for `rating_monotone_in_wins_fixed_prior` at a concrete input. -/
theorem rating_monotone_in_wins_fixed_prior_witness :
    Unnamed0.calculateStrength (Unnamed0.deckResult 1 1 1 1 1 0).lowerBound
      ≤ Unnamed0.calculateStrength (Unnamed0.deckResult 1 1 1 2 0 0).lowerBound :=
  rating_monotone_in_wins_fixed_prior 1 1 1 1 1 0 1
    (by norm_num) (by norm_num) (by norm_num) (by norm_num)

/-- C1 (amended): holding the prior (priorAlpha, priorBeta) and the meta
adjustment factor fixed, if two entities have the same tie-adjusted win
rate r = (wins + 0.5*ties)/n, this common rate is at least the prior mean
priorAlpha/(priorAlpha+priorBeta), and the first entity's sample size is
no larger than the second's, then the first entity's rating is less than
or equal to the second's. The original claim fails at population level
because the empirical prior depends on each entity's own record, and it
also fails when the common rate lies below the prior mean (shrinkage then
pulls the larger sample down towards the prior). -/
theorem shrinkage_fixed_prior
    (pA pB adj r : ℚ) (w1 l1 t1 w2 l2 t2 : ℕ)
    (hpA : 0 < pA) (hpB : 0 < pB) (hadj : 0 ≤ adj)
    (hn12 : w1 + l1 + t1 ≤ w2 + l2 + t2)
    (hr1 : (w1 : ℚ) + 0.5 * (t1 : ℚ) = r * ((w1 + l1 + t1 : ℕ) : ℚ))
    (hr2 : (w2 : ℚ) + 0.5 * (t2 : ℚ) = r * ((w2 + l2 + t2 : ℕ) : ℚ))
    (hrp : pA / (pA + pB) ≤ r) :
    Unnamed0.calculateStrength (Unnamed0.deckResult pA pB adj w1 l1 t1).lowerBound
      ≤ Unnamed0.calculateStrength
          (Unnamed0.deckResult pA pB adj w2 l2 t2).lowerBound := by
  simp only [Unnamed0.calculateStrength]
  apply mul_le_mul_of_nonneg_right _ (by norm_num)
  apply deckResult_lowerBound_mono pA pB adj w1 l1 t1 w2 l2 t2 hpA hpB hadj hn12
  have hP : (0 : ℚ) < pA + pB := by linarith
  have hrP : pA ≤ r * (pA + pB) := by
    have := (div_le_iff₀ hP).mp hrp
    linarith
  have hn1q : (0 : ℚ) ≤ ((w1 + l1 + t1 : ℕ) : ℚ) := Nat.cast_nonneg _
  have hn12q : ((w1 + l1 + t1 : ℕ) : ℚ) ≤ ((w2 + l2 + t2 : ℕ) : ℚ) := by
    exact_mod_cast hn12
  have ha1 : pA + (w1 : ℚ) + 0.5 * (t1 : ℚ)
      = pA + r * ((w1 + l1 + t1 : ℕ) : ℚ) := by linarith
  have ha2 : pA + (w2 : ℚ) + 0.5 * (t2 : ℚ)
      = pA + r * ((w2 + l2 + t2 : ℕ) : ℚ) := by linarith
  have hab1 : pA + (w1 : ℚ) + 0.5 * (t1 : ℚ)
        + (pB + (l1 : ℚ) + 0.5 * (t1 : ℚ))
      = (pA + pB) + ((w1 + l1 + t1 : ℕ) : ℚ) := by
    push_cast
    ring
  have hab2 : pA + (w2 : ℚ) + 0.5 * (t2 : ℚ)
        + (pB + (l2 : ℚ) + 0.5 * (t2 : ℚ))
      = (pA + pB) + ((w2 + l2 + t2 : ℕ) : ℚ) := by
    push_cast
    ring
  rw [hab1, hab2, ha1, ha2]
  rw [div_le_div_iff₀ (by linarith) (by linarith)]
  nlinarith [mul_nonneg (sub_nonneg.mpr hn12q) (sub_nonneg.mpr hrP)]

/-- Witness for `shrinkage_fixed_prior` at a concrete input. -/
theorem shrinkage_fixed_prior_witness :
    Unnamed0.calculateStrength (Unnamed0.deckResult 1 1 1 1 1 0).lowerBound
      ≤ Unnamed0.calculateStrength (Unnamed0.deckResult 1 1 1 2 2 0).lowerBound :=
  shrinkage_fixed_prior 1 1 1 (1/2) 1 1 0 2 2 0
    (by norm_num) (by norm_num) (by norm_num) (by norm_num)
    (by norm_num) (by norm_num) (by norm_num)

/-- `getDynamicZScore` at n = 2000 games: the 2000-breakpoint value
3.035, with no log smoothing. -/
theorem getDynamicZScore_2000 :
    Unnamed0.getDynamicZScore 2000 = ((607/200 : ℚ) : ℝ) := by
  have h : Unnamed0.zInterp (max 1 (min ((2000 : ℕ) : ℚ) 1000000)) = 607/200 := by
    norm_num [Unnamed0.zInterp, Unnamed0.lerp]
  simp only [Unnamed0.getDynamicZScore]
  rw [if_neg (by norm_num), h]

/-- `getDynamicZScore` at n = 100 games: the 100-breakpoint value 3.201,
with no log smoothing (the smoothing branch requires n < 100). -/
theorem getDynamicZScore_100 :
    Unnamed0.getDynamicZScore 100 = ((3201/1000 : ℚ) : ℝ) := by
  have h : Unnamed0.zInterp (max 1 (min ((100 : ℕ) : ℚ) 1000000)) = 3201/1000 := by
    norm_num [Unnamed0.zInterp, Unnamed0.lerp]
  simp only [Unnamed0.getDynamicZScore]
  rw [if_neg (by norm_num), h]

/-- C1 counterexample: in the 60-deck population `pop60`, decks A
(900-1100-0, n = 2000) and B (45-55-0, n = 100) have the same
tie-adjusted win rate 0.45, yet the smaller-sample deck B receives a
strictly GREATER rating: the common rate lies below the empirical prior
mean (≈ 0.4991), so the smaller sample is shrunk further towards the
higher prior. This refutes the claim as stated. -/
theorem shrinkage_fails_on_pop60 :
    Unnamed0.deckWinRate deckA = Unnamed0.deckWinRate deckB
    ∧ Unnamed0.sampleSize deckB < Unnamed0.sampleSize deckA
    ∧ Unnamed0.hierarchicalBayesian pop60
      = pop60.map (fun d =>
          Unnamed0.deckResult (Unnamed0.priorAlpha pop60)
            (Unnamed0.priorBeta pop60)
            (Unnamed0.getMetaAdjustmentFactor pop60.length)
            d.wins d.losses d.ties)
    ∧ Unnamed0.calculateStrength
        (Unnamed0.deckResult (Unnamed0.priorAlpha pop60)
          (Unnamed0.priorBeta pop60)
          (Unnamed0.getMetaAdjustmentFactor pop60.length)
          deckA.wins deckA.losses deckA.ties).lowerBound
      < Unnamed0.calculateStrength
        (Unnamed0.deckResult (Unnamed0.priorAlpha pop60)
          (Unnamed0.priorBeta pop60)
          (Unnamed0.getMetaAdjustmentFactor pop60.length)
          deckB.wins deckB.losses deckB.ties).lowerBound := by
  have hwm : Unnamed0.weightedMean pop60 = 11789/23620 := by
    norm_num [Unnamed0.weightedMean, Unnamed0.totalGames, Unnamed0.deckWinRate,
      Unnamed0.sampleSize, pop60, bigDeck, deckA, deckB, List.map_append,
      List.map_replicate, List.sum_append, List.sum_replicate, List.map_cons,
      List.map_nil, List.sum_cons, List.sum_nil, smul_eq_mul]
  have hbv : Unnamed0.betweenDeckVariance pop60 = 1358389/16737132000 := by
    simp only [Unnamed0.betweenDeckVariance, hwm]
    norm_num [pop60, bigDeck, deckA, deckB, Unnamed0.deckWinRate,
      Unnamed0.sampleSize, List.map_append, List.map_replicate, List.sum_append,
      List.sum_replicate, List.map_cons, List.map_nil, List.sum_cons,
      List.sum_nil, smul_eq_mul, List.length_append, List.length_replicate,
      List.length_cons, List.length_nil]
  have hme : Unnamed0.meanEst pop60 = 11789/23620 := by
    simp only [Unnamed0.meanEst, hwm]
    norm_num
  have hve : Unnamed0.varEst pop60 = 1/10000 := by
    simp only [Unnamed0.varEst, hbv, hme]
    norm_num
  have hsc : Unnamed0.alphaBetaScale pop60 = 3485496714/1394761 := by
    simp only [Unnamed0.alphaBetaScale, hme, hve]
    norm_num
  have hpA : Unnamed0.priorAlpha pop60 = 20545260380673/16472127410 := by
    simp only [Unnamed0.priorAlpha, hme, hsc]
    norm_num
  have hpB : Unnamed0.priorBeta pop60 = 20618455811667/16472127410 := by
    simp only [Unnamed0.priorBeta, hme, hsc]
    norm_num
  have hadj : Unnamed0.getMetaAdjustmentFactor pop60.length = 23/25 := by
    norm_num [Unnamed0.getMetaAdjustmentFactor, pop60, List.length_append,
      List.length_replicate, List.length_cons, List.length_nil]
  refine ⟨by norm_num [Unnamed0.deckWinRate, Unnamed0.sampleSize, deckA, deckB],
    by norm_num [Unnamed0.sampleSize, deckA, deckB], rfl, ?_⟩
  rw [hpA, hpB, hadj]
  simp only [deckA, deckB]
  have hbA : (Unnamed0.deckResult (20545260380673/16472127410)
      (20618455811667/16472127410) (23/25) 900 1100 0).lowerBound
      ≤ 0.4566 := by
    have hres : (Unnamed0.deckResult (20545260380673/16472127410)
        (20618455811667/16472127410) (23/25) 900 1100 0).lowerBound
        = min 0.99 (max 0 (((35370175049673/74107971012340 : ℚ) : ℝ)
          - Unnamed0.getDynamicZScore 2000 * ((23/25 : ℚ) : ℝ)
            * Real.sqrt
              ((456720874746015931859519297/8237972580720239650694843370000
                : ℚ) : ℝ))) := by
      simp only [Unnamed0.deckResult]
      norm_num
    rw [hres, getDynamicZScore_2000]
    have hz : ((607/200 : ℚ) : ℝ) * ((23/25 : ℚ) : ℝ) = 13961/5000 := by
      norm_num
    rw [hz]
    set s := Real.sqrt
      ((456720874746015931859519297/8237972580720239650694843370000 : ℚ) : ℝ)
      with hsdef
    have hv0 : (0 : ℝ)
        ≤ ((456720874746015931859519297/8237972580720239650694843370000
            : ℚ) : ℝ) := by
      norm_num
    have hs2 : s ^ 2
        = ((456720874746015931859519297/8237972580720239650694843370000
            : ℚ) : ℝ) := Real.sq_sqrt hv0
    have hq : (0.00744 : ℝ) ^ 2
        ≤ ((456720874746015931859519297/8237972580720239650694843370000
            : ℚ) : ℝ) := by
      norm_num
    have hsl : (0.00744 : ℝ) ≤ s := by
      nlinarith [Real.sqrt_nonneg
        ((456720874746015931859519297/8237972580720239650694843370000
          : ℚ) : ℝ), hs2, hq]
    refine le_trans (min_le_right _ _) ?_
    apply max_le (by norm_num)
    have hm : ((35370175049673/74107971012340 : ℚ) : ℝ) ≤ 0.477279 := by
      norm_num
    linarith
  have hbB : (0.4682 : ℝ)
      ≤ (Unnamed0.deckResult (20545260380673/16472127410)
        (20618455811667/16472127410) (23/25) 45 55 0).lowerBound := by
    have hres : (Unnamed0.deckResult (20545260380673/16472127410)
        (20618455811667/16472127410) (23/25) 45 55 0).lowerBound
        = min 0.99 (max 0 (((21286506114123/42810928933340 : ℚ) : ℝ)
          - Unnamed0.getDynamicZScore 100 * ((23/25 : ℚ) : ℝ)
            * Real.sqrt
              ((458179757944231291199501691/4765202166630506451841092470000
                : ℚ) : ℝ))) := by
      simp only [Unnamed0.deckResult]
      norm_num
    rw [hres, getDynamicZScore_100]
    have hz : ((3201/1000 : ℚ) : ℝ) * ((23/25 : ℚ) : ℝ) = 73623/25000 := by
      norm_num
    rw [hz]
    set s := Real.sqrt
      ((458179757944231291199501691/4765202166630506451841092470000 : ℚ) : ℝ)
      with hsdef
    have hv0 : (0 : ℝ)
        ≤ ((458179757944231291199501691/4765202166630506451841092470000
            : ℚ) : ℝ) := by
      norm_num
    have hs2 : s ^ 2
        = ((458179757944231291199501691/4765202166630506451841092470000
            : ℚ) : ℝ) := Real.sq_sqrt hv0
    have hq : ((458179757944231291199501691/4765202166630506451841092470000
          : ℚ) : ℝ)
        ≤ (0.00981 : ℝ) ^ 2 := by
      norm_num
    have hsu : s ≤ (0.00981 : ℝ) := by
      nlinarith [Real.sqrt_nonneg
        ((458179757944231291199501691/4765202166630506451841092470000
          : ℚ) : ℝ), hs2, hq]
    refine le_min (by norm_num) (le_trans ?_ (le_max_right _ _))
    have hm : (0.497221 : ℝ) ≤ ((21286506114123/42810928933340 : ℚ) : ℝ) := by
      norm_num
    linarith
  simp only [Unnamed0.calculateStrength]
  linarith

/-- C2 counterexample: the populations `pop5A` and `pop5B` differ only in
the last entity, which keeps sample size n = 100 but converts five losses
into five wins (50-50-0 becomes 55-45-0). Because the empirical-Bayes
prior is recomputed from the population (and the entity's own record), the
50-50 record yields a degenerate zero between-deck variance and hence an
extremely concentrated prior, while the 55-45 record spreads the win
rates and weakens the prior: the entity's rating strictly DECREASES after
winning five more games. This refutes the claim as stated. -/
theorem rating_drops_when_wins_increase_pop5 :
    Unnamed0.sampleSize ⟨"I", 10, 50, 50, 0⟩
      = Unnamed0.sampleSize ⟨"I", 10, 55, 45, 0⟩
    ∧ Unnamed0.hierarchicalBayesian pop5A
      = pop5A.map (fun d =>
          Unnamed0.deckResult (Unnamed0.priorAlpha pop5A)
            (Unnamed0.priorBeta pop5A)
            (Unnamed0.getMetaAdjustmentFactor pop5A.length)
            d.wins d.losses d.ties)
    ∧ Unnamed0.hierarchicalBayesian pop5B
      = pop5B.map (fun d =>
          Unnamed0.deckResult (Unnamed0.priorAlpha pop5B)
            (Unnamed0.priorBeta pop5B)
            (Unnamed0.getMetaAdjustmentFactor pop5B.length)
            d.wins d.losses d.ties)
    ∧ Unnamed0.calculateStrength
        (Unnamed0.deckResult (Unnamed0.priorAlpha pop5B)
          (Unnamed0.priorBeta pop5B)
          (Unnamed0.getMetaAdjustmentFactor pop5B.length) 55 45 0).lowerBound
      < Unnamed0.calculateStrength
        (Unnamed0.deckResult (Unnamed0.priorAlpha pop5A)
          (Unnamed0.priorBeta pop5A)
          (Unnamed0.getMetaAdjustmentFactor pop5A.length) 50 50 0).lowerBound := by
  have hwmA : Unnamed0.weightedMean pop5A = 1/2 := by
    norm_num [Unnamed0.weightedMean, Unnamed0.totalGames, Unnamed0.deckWinRate,
      Unnamed0.sampleSize, pop5A, bigDeck, List.map_append, List.map_replicate,
      List.sum_append, List.sum_replicate, List.map_cons, List.map_nil,
      List.sum_cons, List.sum_nil, smul_eq_mul]
  have hbvA : Unnamed0.betweenDeckVariance pop5A = 0 := by
    simp only [Unnamed0.betweenDeckVariance, hwmA]
    norm_num [pop5A, bigDeck, Unnamed0.deckWinRate, Unnamed0.sampleSize,
      List.map_append, List.map_replicate, List.sum_append, List.sum_replicate,
      List.map_cons, List.map_nil, List.sum_cons, List.sum_nil, smul_eq_mul,
      List.length_append, List.length_replicate, List.length_cons,
      List.length_nil]
  have hmeA : Unnamed0.meanEst pop5A = 1/2 := by
    simp only [Unnamed0.meanEst, hwmA]
    norm_num
  have hveA : Unnamed0.varEst pop5A = 1/10000 := by
    simp only [Unnamed0.varEst, hbvA, hmeA]
    norm_num
  have hscA : Unnamed0.alphaBetaScale pop5A = 2499 := by
    simp only [Unnamed0.alphaBetaScale, hmeA, hveA]
    norm_num
  have hpAA : Unnamed0.priorAlpha pop5A = 2499/2 := by
    simp only [Unnamed0.priorAlpha, hmeA, hscA]
    norm_num
  have hpBA : Unnamed0.priorBeta pop5A = 2499/2 := by
    simp only [Unnamed0.priorBeta, hmeA, hscA]
    norm_num
  have hwmB : Unnamed0.weightedMean pop5B = 811/1620 := by
    norm_num [Unnamed0.weightedMean, Unnamed0.totalGames, Unnamed0.deckWinRate,
      Unnamed0.sampleSize, pop5B, bigDeck, List.map_append, List.map_replicate,
      List.sum_append, List.sum_replicate, List.map_cons, List.map_nil,
      List.sum_cons, List.sum_nil, smul_eq_mul]
  have hbvB : Unnamed0.betweenDeckVariance pop5B = 1601/3280500 := by
    simp only [Unnamed0.betweenDeckVariance, hwmB]
    norm_num [pop5B, bigDeck, Unnamed0.deckWinRate, Unnamed0.sampleSize,
      List.map_append, List.map_replicate, List.sum_append, List.sum_replicate,
      List.map_cons, List.map_nil, List.sum_cons, List.sum_nil, smul_eq_mul,
      List.length_append, List.length_replicate, List.length_cons,
      List.length_nil]
  have hmeB : Unnamed0.meanEst pop5B = 811/1620 := by
    simp only [Unnamed0.meanEst, hwmB]
    norm_num
  have hveB : Unnamed0.varEst pop5B = 1601/3280500 := by
    simp only [Unnamed0.varEst, hbvB, hmeB]
    norm_num
  have hscB : Unnamed0.alphaBetaScale pop5B = 3274091/6404 := by
    simp only [Unnamed0.alphaBetaScale, hmeB, hveB]
    norm_num
  have hpAB : Unnamed0.priorAlpha pop5B = 2655287801/10374480 := by
    simp only [Unnamed0.priorAlpha, hmeB, hscB]
    norm_num
  have hpBB : Unnamed0.priorBeta pop5B = 2648739619/10374480 := by
    simp only [Unnamed0.priorBeta, hmeB, hscB]
    norm_num
  have hadjA : Unnamed0.getMetaAdjustmentFactor pop5A.length = 81/100 := by
    norm_num [Unnamed0.getMetaAdjustmentFactor, pop5A, List.length_append,
      List.length_replicate, List.length_cons, List.length_nil]
  have hadjB : Unnamed0.getMetaAdjustmentFactor pop5B.length = 81/100 := by
    norm_num [Unnamed0.getMetaAdjustmentFactor, pop5B, List.length_append,
      List.length_replicate, List.length_cons, List.length_nil]
  refine ⟨by norm_num [Unnamed0.sampleSize], rfl, rfl, ?_⟩
  rw [hpAA, hpBA, hadjA, hpAB, hpBB, hadjB]
  have hbB : (Unnamed0.deckResult (2655287801/10374480) (2648739619/10374480)
      (81/100) 55 45 0).lowerBound ≤ 0.4564 := by
    have hres : (Unnamed0.deckResult (2655287801/10374480)
        (2648739619/10374480) (81/100) 55 45 0).lowerBound
        = min 0.99 (max 0 (((3225884201/6341475420 : ℚ) : ℝ)
          - Unnamed0.getDynamicZScore 100 * ((81/100 : ℚ) : ℝ)
            * Real.sqrt
              ((16090908920724436061419/39419022244389819231469500
                : ℚ) : ℝ))) := by
      simp only [Unnamed0.deckResult]
      norm_num
    rw [hres, getDynamicZScore_100]
    have hz : ((3201/1000 : ℚ) : ℝ) * ((81/100 : ℚ) : ℝ) = 259281/100000 := by
      norm_num
    rw [hz]
    set s := Real.sqrt
      ((16090908920724436061419/39419022244389819231469500 : ℚ) : ℝ)
      with hsdef
    have hv0 : (0 : ℝ)
        ≤ ((16090908920724436061419/39419022244389819231469500 : ℚ) : ℝ) := by
      norm_num
    have hs2 : s ^ 2
        = ((16090908920724436061419/39419022244389819231469500 : ℚ) : ℝ) :=
      Real.sq_sqrt hv0
    have hq : (0.0202 : ℝ) ^ 2
        ≤ ((16090908920724436061419/39419022244389819231469500 : ℚ) : ℝ) := by
      norm_num
    have hsl : (0.0202 : ℝ) ≤ s := by
      nlinarith [Real.sqrt_nonneg
        ((16090908920724436061419/39419022244389819231469500 : ℚ) : ℝ),
        hs2, hq]
    refine le_trans (min_le_right _ _) ?_
    apply max_le (by norm_num)
    have hm : ((3225884201/6341475420 : ℚ) : ℝ) ≤ 0.5086962 := by
      norm_num
    linarith
  have hbA : (0.4745 : ℝ)
      ≤ (Unnamed0.deckResult (2499/2) (2499/2) (81/100) 50 50 0).lowerBound := by
    have hres : (Unnamed0.deckResult (2499/2) (2499/2)
        (81/100) 50 50 0).lowerBound
        = min 0.99 (max 0 (((1/2 : ℚ) : ℝ)
          - Unnamed0.getDynamicZScore 100 * ((81/100 : ℚ) : ℝ)
            * Real.sqrt ((1/10400 : ℚ) : ℝ))) := by
      simp only [Unnamed0.deckResult]
      norm_num
    rw [hres, getDynamicZScore_100]
    have hz : ((3201/1000 : ℚ) : ℝ) * ((81/100 : ℚ) : ℝ) = 259281/100000 := by
      norm_num
    rw [hz]
    set s := Real.sqrt ((1/10400 : ℚ) : ℝ) with hsdef
    have hv0 : (0 : ℝ) ≤ ((1/10400 : ℚ) : ℝ) := by norm_num
    have hs2 : s ^ 2 = ((1/10400 : ℚ) : ℝ) := Real.sq_sqrt hv0
    have hq : ((1/10400 : ℚ) : ℝ) ≤ (0.009806 : ℝ) ^ 2 := by norm_num
    have hsu : s ≤ (0.009806 : ℝ) := by
      nlinarith [Real.sqrt_nonneg ((1/10400 : ℚ) : ℝ), hs2, hq]
    refine le_min (by norm_num) (le_trans ?_ (le_max_right _ _))
    have hm : ((1/2 : ℚ) : ℝ) = 0.5 := by norm_num
    rw [hm]
    linarith
  simp only [Unnamed0.calculateStrength]
  linarith
